import Mathlib

/-!
Mutual reprojection edge wrapper (Sim3 loop-closure optimisation).

A shallow embedding of `PLPSLAM/optimize/g2o/sim3/mutual_reproj_edge_wrapper.h`:
the class template `mutual_reproj_edge_wapper<T>`, its constructor (which builds
one forward and one backward reprojection edge) and its four inlier/outlier
operations.

Conventions of the embedding.

* Floating-point values (`float`, `double`) are embedded as rationals: every
  finite floating-point value is a rational, the widening `float → double` is
  exact, and the only arithmetic the wrapper performs is the product of the
  coefficients `1` and `0` of the identity matrix with one scalar, which is
  exact on finite values.  Infinities and NaN are outside the embedding.
* Pointers to heap objects owned by the optimiser (edges, kernels) are embedded
  as the objects themselves; the pointer to the shared transform vertex, which
  is only compared for identity, is embedded as an address.
* An operation that can throw or that can leave defined behaviour returns
  `Except fault _`.
-/

namespace PLPSLAM

/-- Finite floating-point values (`float` and `double`). -/
abbrev Scalar := ℚ

/-- Eigen `Vec2_t`: a column of two doubles. -/
structure Vec2_t where
  x : Scalar
  y : Scalar
deriving DecidableEq

/-- Eigen `Vec3_t`: a column of three doubles. -/
structure Vec3_t where
  x : Scalar
  y : Scalar
  z : Scalar
deriving DecidableEq

/-- Eigen `Mat22_t`: a 2x2 matrix of doubles, `mij` being row `i`, column `j`. -/
structure Mat22_t where
  m00 : Scalar
  m01 : Scalar
  m10 : Scalar
  m11 : Scalar
deriving DecidableEq

/-- The matrix `Mat22_t::Identity()`. -/
def Mat22_t.Identity : Mat22_t := ⟨1, 0, 0, 1⟩

/-- The product `M * s` of a matrix with a scalar: every coefficient is multiplied by `s`
(exact on the finite values the embedding covers). -/
def Mat22_t.mul_scalar (M : Mat22_t) (s : Scalar) : Mat22_t :=
  ⟨M.m00 * s, M.m01 * s, M.m10 * s, M.m11 * s⟩

/-- The transpose of a 2x2 matrix. -/
def Mat22_t.transpose (M : Mat22_t) : Mat22_t := ⟨M.m00, M.m10, M.m01, M.m11⟩

/-- The quadratic form `vᵀ M v` of a 2x2 matrix. -/
def Mat22_t.quad (M : Mat22_t) (v : Vec2_t) : Scalar :=
  v.x * (M.m00 * v.x + M.m01 * v.y) + v.y * (M.m10 * v.x + M.m11 * v.y)

/-- What can go wrong while the constructor runs.  `out_of_range` is the C++ exception
`std::out_of_range` thrown by `std::vector::at`, the only exception the constructor can
raise.  `undefined_behaviour` is not an exception and not an outcome a caller observes: it
marks that the execution has called a member function through an edge pointer that no
branch of the `switch` has assigned, after which the language defines no result at all and
the run may do anything, a normal return included (see `construct_permits`). -/
inductive fault where
  | out_of_range
  | undefined_behaviour
deriving DecidableEq

/-- The values of the C++ type `int` (32 bits, two's complement). -/
abbrev c_int := { i : Int // -(2 ^ 31 : Int) ≤ i ∧ i < (2 ^ 31 : Int) }

/-- The conversion of an `int` to `std::size_t` (64 bits): reduction modulo `2^64`. -/
def to_size_t (i : c_int) : Nat := (i.val % (2 ^ 64 : Int)).toNat

/-- The checked element access `std::vector::at`: the element at position `n`, or the
exception `std::out_of_range` when `n` is not smaller than the size. -/
def vector_at {α : Type} (v : List α) (n : Nat) : Except fault α :=
  match v[n]? with
  | some a => Except.ok a
  | none => Except.error fault.out_of_range

namespace camera

/-- Modelled from the spec: the enumeration `camera::model_type_t` is declared in
`PLPSLAM/camera/base.h`, which is not part of the sources at hand.  Its three enumerators are
the three camera-model variants of the spec; `unrecognized raw` stands for a stored tag value
that is none of them. -/
inductive model_type_t where
  | Perspective
  | Fisheye
  | Equirectangular
  | unrecognized (raw : Nat)
deriving DecidableEq

/-- Modelled from the spec: the class `camera::perspective` (focal lengths and principal
point); its declaration is not part of the sources at hand. -/
structure perspective where
  fx_ : Scalar
  fy_ : Scalar
  cx_ : Scalar
  cy_ : Scalar
deriving DecidableEq

/-- Modelled from the spec: the class `camera::fisheye` (focal lengths and principal point);
its declaration is not part of the sources at hand. -/
structure fisheye where
  fx_ : Scalar
  fy_ : Scalar
  cx_ : Scalar
  cy_ : Scalar
deriving DecidableEq

/-- Modelled from the spec: the class `camera::equirectangular` (image width and height); its
declaration is not part of the sources at hand. -/
structure equirectangular where
  cols_ : Scalar
  rows_ : Scalar
deriving DecidableEq

/-- A camera object reached through a `camera::base *`: the dynamic class of the object
agrees with its tag `model_type_`, so that the `static_cast` of each `switch` branch is the
projection onto the matching alternative.  The last alternative is a camera whose tag is
none of the three enumerators. -/
inductive base where
  | perspective (c : camera.perspective)
  | fisheye (c : camera.fisheye)
  | equirectangular (c : camera.equirectangular)
  | other (raw : Nat)
deriving DecidableEq

/-- The member `model_type_` of a camera. -/
def base.model_type_ : base → model_type_t
  | base.perspective _ => model_type_t.Perspective
  | base.fisheye _ => model_type_t.Fisheye
  | base.equirectangular _ => model_type_t.Equirectangular
  | base.other raw => model_type_t.unrecognized raw

/-- The tag is one of the three enumerators handled by the constructor. -/
def model_type_t.recognized : model_type_t → Bool
  | model_type_t.unrecognized _ => false
  | _ => true

end camera

/-- OpenCV `cv::Point2f`. -/
structure Point2f where
  x : Scalar
  y : Scalar
deriving DecidableEq

/-- OpenCV `cv::KeyPoint`, restricted to the members the wrapper reads: the position `pt`
and the pyramid level `octave` (an `int`). -/
structure KeyPoint where
  pt : Point2f
  octave : c_int
deriving DecidableEq

namespace data

/-- Modelled from the spec: a landmark owns a 3D position in the world frame; the class
`data::landmark` is only forward-declared in the sources at hand. -/
structure landmark where
  pos_w_ : Vec3_t
deriving DecidableEq

/-- The accessor `landmark::get_pos_in_world`. -/
def landmark.get_pos_in_world (lm : landmark) : Vec3_t := lm.pos_w_

end data

/-- The template parameter `T` (a frame or keyframe), restricted to the members the
constructor reads through `shot1` and `shot2`. -/
structure shot where
  camera_ : camera.base
  undist_keypts_ : List KeyPoint
  inv_level_sigma_sq_ : List Scalar
deriving DecidableEq

namespace optimize.g2o

/-- The robust kernel `::g2o::RobustKernelHuber`, whose state is its threshold. -/
structure RobustKernelHuber where
  delta : Scalar
deriving DecidableEq

/-- A freshly allocated kernel: the library's default threshold is `1`. -/
def RobustKernelHuber.new : RobustKernelHuber := ⟨1⟩

/-- The setter `RobustKernel::setDelta`. -/
def RobustKernelHuber.setDelta (_k : RobustKernelHuber) (delta : Scalar) : RobustKernelHuber :=
  ⟨delta⟩

namespace sim3

/-- A `transform_vertex *`: the address of the shared Sim3 vertex. -/
structure transform_vertex_ptr where
  addr : Nat
deriving DecidableEq

/-- Modelled from the spec: the state every edge inherits from the optimiser's unary edge
(`::g2o::BaseUnaryEdge<2, Vec2_t, transform_vertex>`, not part of the sources at hand): the
observed measurement, the information matrix, the vertex bound at slot 0, the attached robust
kernel and the integer suppression level. -/
structure BaseUnaryEdge where
  measurement : Vec2_t
  information : Mat22_t
  vertex0 : Option transform_vertex_ptr
  robustKernel : Option RobustKernelHuber
  level : Int
deriving DecidableEq

/-- Modelled from the spec: a freshly allocated edge has level 0 (the spec's "initial level
= 0 for both edges"), no vertex bound and no robust kernel; the measurement and information
it starts with are placeholders that the constructor overwrites. -/
def BaseUnaryEdge.new : BaseUnaryEdge :=
  { measurement := ⟨0, 0⟩, information := Mat22_t.Identity, vertex0 := none,
    robustKernel := none, level := 0 }

/-- The setter `setMeasurement`. -/
def BaseUnaryEdge.setMeasurement (e : BaseUnaryEdge) (m : Vec2_t) : BaseUnaryEdge :=
  { e with measurement := m }

/-- The setter `setInformation`. -/
def BaseUnaryEdge.setInformation (e : BaseUnaryEdge) (info : Mat22_t) : BaseUnaryEdge :=
  { e with information := info }

/-- The binding `setVertex(i, v)`; a unary edge has the single slot 0. -/
def BaseUnaryEdge.setVertex (e : BaseUnaryEdge) (i : Nat) (v : transform_vertex_ptr) :
    BaseUnaryEdge :=
  if i = 0 then { e with vertex0 := some v } else e

/-- The setter `setRobustKernel`. -/
def BaseUnaryEdge.setRobustKernel (e : BaseUnaryEdge) (k : RobustKernelHuber) : BaseUnaryEdge :=
  { e with robustKernel := some k }

/-- The setter `setLevel`. -/
def BaseUnaryEdge.setLevel (e : BaseUnaryEdge) (l : Int) : BaseUnaryEdge :=
  { e with level := l }

/-- The intrinsics held by a concrete edge class: the four scalars of the classes
`perspective_forward_reproj_edge` and `perspective_backward_reproj_edge`, or the two scalars
of `equirectangular_forward_reproj_edge` and `equirectangular_backward_reproj_edge`. -/
inductive edge_intrinsics where
  | four (fx_ fy_ cx_ cy_ : Scalar)
  | two (cols_ rows_ : Scalar)
deriving DecidableEq

/-- The class `perspective_forward_reproj_edge`. -/
structure perspective_forward_reproj_edge extends BaseUnaryEdge where
  pos_w_ : Vec3_t
  fx_ : Scalar
  fy_ : Scalar
  cx_ : Scalar
  cy_ : Scalar
deriving DecidableEq

/-- The class `equirectangular_forward_reproj_edge`. -/
structure equirectangular_forward_reproj_edge extends BaseUnaryEdge where
  pos_w_ : Vec3_t
  cols_ : Scalar
  rows_ : Scalar
deriving DecidableEq

/-- The class `perspective_backward_reproj_edge`. -/
structure perspective_backward_reproj_edge extends BaseUnaryEdge where
  pos_w_ : Vec3_t
  fx_ : Scalar
  fy_ : Scalar
  cx_ : Scalar
  cy_ : Scalar
deriving DecidableEq

/-- The class `equirectangular_backward_reproj_edge`. -/
structure equirectangular_backward_reproj_edge extends BaseUnaryEdge where
  pos_w_ : Vec3_t
  cols_ : Scalar
  rows_ : Scalar
deriving DecidableEq

/-- The result of `new perspective_forward_reproj_edge()`; the members the edge class adds
start with placeholder values that the constructor overwrites. -/
def perspective_forward_reproj_edge.new : perspective_forward_reproj_edge :=
  { toBaseUnaryEdge := BaseUnaryEdge.new, pos_w_ := ⟨0, 0, 0⟩, fx_ := 0, fy_ := 0, cx_ := 0,
    cy_ := 0 }

/-- The result of `new equirectangular_forward_reproj_edge()`. -/
def equirectangular_forward_reproj_edge.new : equirectangular_forward_reproj_edge :=
  { toBaseUnaryEdge := BaseUnaryEdge.new, pos_w_ := ⟨0, 0, 0⟩, cols_ := 0, rows_ := 0 }

/-- The result of `new perspective_backward_reproj_edge()`. -/
def perspective_backward_reproj_edge.new : perspective_backward_reproj_edge :=
  { toBaseUnaryEdge := BaseUnaryEdge.new, pos_w_ := ⟨0, 0, 0⟩, fx_ := 0, fy_ := 0, cx_ := 0,
    cy_ := 0 }

/-- The result of `new equirectangular_backward_reproj_edge()`. -/
def equirectangular_backward_reproj_edge.new : equirectangular_backward_reproj_edge :=
  { toBaseUnaryEdge := BaseUnaryEdge.new, pos_w_ := ⟨0, 0, 0⟩, cols_ := 0, rows_ := 0 }

/-- An object reached through a `base_forward_reproj_edge *`: one of the two concrete
forward edge classes. -/
inductive base_forward_reproj_edge where
  | perspective (e : perspective_forward_reproj_edge)
  | equirectangular (e : equirectangular_forward_reproj_edge)
deriving DecidableEq

/-- An object reached through a `base_backward_reproj_edge *`: one of the two concrete
backward edge classes. -/
inductive base_backward_reproj_edge where
  | perspective (e : perspective_backward_reproj_edge)
  | equirectangular (e : equirectangular_backward_reproj_edge)
deriving DecidableEq

/-- The names of the concrete edge classes. -/
inductive edge_class where
  | perspective_forward_reproj_edge
  | equirectangular_forward_reproj_edge
  | perspective_backward_reproj_edge
  | equirectangular_backward_reproj_edge
deriving DecidableEq

namespace base_forward_reproj_edge

/-- The inherited optimiser state of a forward edge. -/
def toBase : base_forward_reproj_edge → BaseUnaryEdge
  | perspective e => e.toBaseUnaryEdge
  | equirectangular e => e.toBaseUnaryEdge

/-- The getter `level()`. -/
def level (e : base_forward_reproj_edge) : Int := e.toBase.level

/-- The getter `measurement()`. -/
def measurement (e : base_forward_reproj_edge) : Vec2_t := e.toBase.measurement

/-- The getter `information()`. -/
def information (e : base_forward_reproj_edge) : Mat22_t := e.toBase.information

/-- The vertex bound at slot 0. -/
def vertex0 (e : base_forward_reproj_edge) : Option transform_vertex_ptr := e.toBase.vertex0

/-- The getter `robustKernel()`. -/
def robustKernel (e : base_forward_reproj_edge) : Option RobustKernelHuber :=
  e.toBase.robustKernel

/-- The member `pos_w_`, the attached 3D point. -/
def pos_w_ : base_forward_reproj_edge → Vec3_t
  | perspective e => e.pos_w_
  | equirectangular e => e.pos_w_

/-- The intrinsic scalars the edge holds. -/
def intrinsics : base_forward_reproj_edge → edge_intrinsics
  | perspective e => edge_intrinsics.four e.fx_ e.fy_ e.cx_ e.cy_
  | equirectangular e => edge_intrinsics.two e.cols_ e.rows_

/-- The concrete class of the edge object. -/
def dynamic_class : base_forward_reproj_edge → edge_class
  | perspective _ => edge_class.perspective_forward_reproj_edge
  | equirectangular _ => edge_class.equirectangular_forward_reproj_edge

/-- The setter `setLevel`, called through the base pointer. -/
def setLevel (e : base_forward_reproj_edge) (l : Int) : base_forward_reproj_edge :=
  match e with
  | perspective e => perspective { e with toBaseUnaryEdge := e.toBaseUnaryEdge.setLevel l }
  | equirectangular e =>
    equirectangular { e with toBaseUnaryEdge := e.toBaseUnaryEdge.setLevel l }

/-- The setter `setRobustKernel`, called through the base pointer. -/
def setRobustKernel (e : base_forward_reproj_edge) (k : RobustKernelHuber) :
    base_forward_reproj_edge :=
  match e with
  | perspective e =>
    perspective { e with toBaseUnaryEdge := e.toBaseUnaryEdge.setRobustKernel k }
  | equirectangular e =>
    equirectangular { e with toBaseUnaryEdge := e.toBaseUnaryEdge.setRobustKernel k }

end base_forward_reproj_edge

namespace base_backward_reproj_edge

/-- The inherited optimiser state of a backward edge. -/
def toBase : base_backward_reproj_edge → BaseUnaryEdge
  | perspective e => e.toBaseUnaryEdge
  | equirectangular e => e.toBaseUnaryEdge

/-- The getter `level()`. -/
def level (e : base_backward_reproj_edge) : Int := e.toBase.level

/-- The getter `measurement()`. -/
def measurement (e : base_backward_reproj_edge) : Vec2_t := e.toBase.measurement

/-- The getter `information()`. -/
def information (e : base_backward_reproj_edge) : Mat22_t := e.toBase.information

/-- The vertex bound at slot 0. -/
def vertex0 (e : base_backward_reproj_edge) : Option transform_vertex_ptr := e.toBase.vertex0

/-- The getter `robustKernel()`. -/
def robustKernel (e : base_backward_reproj_edge) : Option RobustKernelHuber :=
  e.toBase.robustKernel

/-- The member `pos_w_`, the attached 3D point. -/
def pos_w_ : base_backward_reproj_edge → Vec3_t
  | perspective e => e.pos_w_
  | equirectangular e => e.pos_w_

/-- The intrinsic scalars the edge holds. -/
def intrinsics : base_backward_reproj_edge → edge_intrinsics
  | perspective e => edge_intrinsics.four e.fx_ e.fy_ e.cx_ e.cy_
  | equirectangular e => edge_intrinsics.two e.cols_ e.rows_

/-- The concrete class of the edge object. -/
def dynamic_class : base_backward_reproj_edge → edge_class
  | perspective _ => edge_class.perspective_backward_reproj_edge
  | equirectangular _ => edge_class.equirectangular_backward_reproj_edge

/-- The setter `setLevel`, called through the base pointer. -/
def setLevel (e : base_backward_reproj_edge) (l : Int) : base_backward_reproj_edge :=
  match e with
  | perspective e => perspective { e with toBaseUnaryEdge := e.toBaseUnaryEdge.setLevel l }
  | equirectangular e =>
    equirectangular { e with toBaseUnaryEdge := e.toBaseUnaryEdge.setLevel l }

/-- The setter `setRobustKernel`, called through the base pointer. -/
def setRobustKernel (e : base_backward_reproj_edge) (k : RobustKernelHuber) :
    base_backward_reproj_edge :=
  match e with
  | perspective e =>
    perspective { e with toBaseUnaryEdge := e.toBaseUnaryEdge.setRobustKernel k }
  | equirectangular e =>
    equirectangular { e with toBaseUnaryEdge := e.toBaseUnaryEdge.setRobustKernel k }

end base_backward_reproj_edge

/-- A member call `p->f(...)` through an edge pointer member of the wrapper under
construction: `none` is the member that no `switch` branch has assigned, whose value is
indeterminate, so that the call has no defined behaviour; the marker
`fault.undefined_behaviour` records that the run has left defined behaviour at this call,
not that it stops there. -/
def through {α : Type} (p : Option α) : Except fault α :=
  match p with
  | some e => Except.ok e
  | none => Except.error fault.undefined_behaviour

/-- The `switch (camera1->model_type_)` of the forward phase (lines 106-184): the value the
member `edge_12_` has after it, `none` when no `case` label matches the tag (the `switch`
has no `default`). -/
def forward_switch (shot1 : shot) (idx1 : Nat) (lm2 : data.landmark)
    (Sim3_12_vtx : transform_vertex_ptr) :
    Except fault (Option base_forward_reproj_edge) :=
  match shot1.camera_ with
  | camera.base.perspective c => do
    let edge_12 := perspective_forward_reproj_edge.new
    let undist_keypt_1 ← vector_at shot1.undist_keypts_ idx1
    let obs_1 : Vec2_t := ⟨undist_keypt_1.pt.x, undist_keypt_1.pt.y⟩
    let inv_sigma_sq_1 ← vector_at shot1.inv_level_sigma_sq_ (to_size_t undist_keypt_1.octave)
    let edge_12 := { edge_12 with toBaseUnaryEdge := edge_12.toBaseUnaryEdge.setMeasurement obs_1 }
    let edge_12 := { edge_12 with toBaseUnaryEdge :=
      edge_12.toBaseUnaryEdge.setInformation (Mat22_t.Identity.mul_scalar inv_sigma_sq_1) }
    let edge_12 := { edge_12 with pos_w_ := lm2.get_pos_in_world }
    let edge_12 := { edge_12 with fx_ := c.fx_ }
    let edge_12 := { edge_12 with fy_ := c.fy_ }
    let edge_12 := { edge_12 with cx_ := c.cx_ }
    let edge_12 := { edge_12 with cy_ := c.cy_ }
    let edge_12 := { edge_12 with toBaseUnaryEdge :=
      edge_12.toBaseUnaryEdge.setVertex 0 Sim3_12_vtx }
    pure (some (base_forward_reproj_edge.perspective edge_12))
  | camera.base.fisheye c => do
    let edge_12 := perspective_forward_reproj_edge.new
    let undist_keypt_1 ← vector_at shot1.undist_keypts_ idx1
    let obs_1 : Vec2_t := ⟨undist_keypt_1.pt.x, undist_keypt_1.pt.y⟩
    let inv_sigma_sq_1 ← vector_at shot1.inv_level_sigma_sq_ (to_size_t undist_keypt_1.octave)
    let edge_12 := { edge_12 with toBaseUnaryEdge := edge_12.toBaseUnaryEdge.setMeasurement obs_1 }
    let edge_12 := { edge_12 with toBaseUnaryEdge :=
      edge_12.toBaseUnaryEdge.setInformation (Mat22_t.Identity.mul_scalar inv_sigma_sq_1) }
    let edge_12 := { edge_12 with pos_w_ := lm2.get_pos_in_world }
    let edge_12 := { edge_12 with fx_ := c.fx_ }
    let edge_12 := { edge_12 with fy_ := c.fy_ }
    let edge_12 := { edge_12 with cx_ := c.cx_ }
    let edge_12 := { edge_12 with cy_ := c.cy_ }
    let edge_12 := { edge_12 with toBaseUnaryEdge :=
      edge_12.toBaseUnaryEdge.setVertex 0 Sim3_12_vtx }
    pure (some (base_forward_reproj_edge.perspective edge_12))
  | camera.base.equirectangular c => do
    let edge_12 := equirectangular_forward_reproj_edge.new
    let undist_keypt_1 ← vector_at shot1.undist_keypts_ idx1
    let obs_1 : Vec2_t := ⟨undist_keypt_1.pt.x, undist_keypt_1.pt.y⟩
    let inv_sigma_sq_1 ← vector_at shot1.inv_level_sigma_sq_ (to_size_t undist_keypt_1.octave)
    let edge_12 := { edge_12 with toBaseUnaryEdge := edge_12.toBaseUnaryEdge.setMeasurement obs_1 }
    let edge_12 := { edge_12 with toBaseUnaryEdge :=
      edge_12.toBaseUnaryEdge.setInformation (Mat22_t.Identity.mul_scalar inv_sigma_sq_1) }
    let edge_12 := { edge_12 with pos_w_ := lm2.get_pos_in_world }
    let edge_12 := { edge_12 with cols_ := c.cols_ }
    let edge_12 := { edge_12 with rows_ := c.rows_ }
    let edge_12 := { edge_12 with toBaseUnaryEdge :=
      edge_12.toBaseUnaryEdge.setVertex 0 Sim3_12_vtx }
    pure (some (base_forward_reproj_edge.equirectangular edge_12))
  | camera.base.other _ => pure none

/-- The `switch (camera2->model_type_)` of the backward phase (lines 196-271): the value the
member `edge_21_` has after it, `none` when no `case` label matches the tag. -/
def backward_switch (shot2 : shot) (idx2 : Nat) (lm1 : data.landmark)
    (Sim3_12_vtx : transform_vertex_ptr) :
    Except fault (Option base_backward_reproj_edge) :=
  match shot2.camera_ with
  | camera.base.perspective c => do
    let edge_21 := perspective_backward_reproj_edge.new
    let undist_keypt_2 ← vector_at shot2.undist_keypts_ idx2
    let obs_2 : Vec2_t := ⟨undist_keypt_2.pt.x, undist_keypt_2.pt.y⟩
    let inv_sigma_sq_2 ← vector_at shot2.inv_level_sigma_sq_ (to_size_t undist_keypt_2.octave)
    let edge_21 := { edge_21 with toBaseUnaryEdge := edge_21.toBaseUnaryEdge.setMeasurement obs_2 }
    let edge_21 := { edge_21 with toBaseUnaryEdge :=
      edge_21.toBaseUnaryEdge.setInformation (Mat22_t.Identity.mul_scalar inv_sigma_sq_2) }
    let edge_21 := { edge_21 with pos_w_ := lm1.get_pos_in_world }
    let edge_21 := { edge_21 with fx_ := c.fx_ }
    let edge_21 := { edge_21 with fy_ := c.fy_ }
    let edge_21 := { edge_21 with cx_ := c.cx_ }
    let edge_21 := { edge_21 with cy_ := c.cy_ }
    let edge_21 := { edge_21 with toBaseUnaryEdge :=
      edge_21.toBaseUnaryEdge.setVertex 0 Sim3_12_vtx }
    pure (some (base_backward_reproj_edge.perspective edge_21))
  | camera.base.fisheye c => do
    let edge_21 := perspective_backward_reproj_edge.new
    let undist_keypt_2 ← vector_at shot2.undist_keypts_ idx2
    let obs_2 : Vec2_t := ⟨undist_keypt_2.pt.x, undist_keypt_2.pt.y⟩
    let inv_sigma_sq_2 ← vector_at shot2.inv_level_sigma_sq_ (to_size_t undist_keypt_2.octave)
    let edge_21 := { edge_21 with toBaseUnaryEdge := edge_21.toBaseUnaryEdge.setMeasurement obs_2 }
    let edge_21 := { edge_21 with toBaseUnaryEdge :=
      edge_21.toBaseUnaryEdge.setInformation (Mat22_t.Identity.mul_scalar inv_sigma_sq_2) }
    let edge_21 := { edge_21 with pos_w_ := lm1.get_pos_in_world }
    let edge_21 := { edge_21 with fx_ := c.fx_ }
    let edge_21 := { edge_21 with fy_ := c.fy_ }
    let edge_21 := { edge_21 with cx_ := c.cx_ }
    let edge_21 := { edge_21 with cy_ := c.cy_ }
    let edge_21 := { edge_21 with toBaseUnaryEdge :=
      edge_21.toBaseUnaryEdge.setVertex 0 Sim3_12_vtx }
    pure (some (base_backward_reproj_edge.perspective edge_21))
  | camera.base.equirectangular c => do
    let edge_21 := equirectangular_backward_reproj_edge.new
    let undist_keypt_2 ← vector_at shot2.undist_keypts_ idx2
    let obs_2 : Vec2_t := ⟨undist_keypt_2.pt.x, undist_keypt_2.pt.y⟩
    let inv_sigma_sq_2 ← vector_at shot2.inv_level_sigma_sq_ (to_size_t undist_keypt_2.octave)
    let edge_21 := { edge_21 with toBaseUnaryEdge := edge_21.toBaseUnaryEdge.setMeasurement obs_2 }
    let edge_21 := { edge_21 with toBaseUnaryEdge :=
      edge_21.toBaseUnaryEdge.setInformation (Mat22_t.Identity.mul_scalar inv_sigma_sq_2) }
    let edge_21 := { edge_21 with pos_w_ := lm1.get_pos_in_world }
    let edge_21 := { edge_21 with cols_ := c.cols_ }
    let edge_21 := { edge_21 with rows_ := c.rows_ }
    let edge_21 := { edge_21 with toBaseUnaryEdge :=
      edge_21.toBaseUnaryEdge.setVertex 0 Sim3_12_vtx }
    pure (some (base_backward_reproj_edge.equirectangular edge_21))
  | camera.base.other _ => pure none

/-- The class template `mutual_reproj_edge_wapper<T>`: the two edges (the objects its
pointer members designate) and the stored observation triples. -/
structure mutual_reproj_edge_wapper where
  edge_12_ : base_forward_reproj_edge
  edge_21_ : base_backward_reproj_edge
  shot1_ : shot
  shot2_ : shot
  idx1_ : Nat
  idx2_ : Nat
  lm1_ : data.landmark
  lm2_ : data.landmark
deriving DecidableEq

/-- The constructor `mutual_reproj_edge_wapper<T>::mutual_reproj_edge_wapper` (lines 96-278):
the member initialiser list, then the forward phase and the backward phase, each a `switch`
followed by the allocation of a Huber kernel that is attached through the edge member. -/
def mutual_reproj_edge_wapper.construct (shot1 : shot) (idx1 : Nat) (lm1 : data.landmark)
    (shot2 : shot) (idx2 : Nat) (lm2 : data.landmark) (Sim3_12_vtx : transform_vertex_ptr)
    (sqrt_chi_sq : Scalar) : Except fault mutual_reproj_edge_wapper := do
  let edge_12_ ← forward_switch shot1 idx1 lm2 Sim3_12_vtx
  let huber_kernel_12 := RobustKernelHuber.new
  let huber_kernel_12 := huber_kernel_12.setDelta sqrt_chi_sq
  let edge_12_ := (← through edge_12_).setRobustKernel huber_kernel_12
  let edge_21_ ← backward_switch shot2 idx2 lm1 Sim3_12_vtx
  let huber_kernel_21 := RobustKernelHuber.new
  let huber_kernel_21 := huber_kernel_21.setDelta sqrt_chi_sq
  let edge_21_ := (← through edge_21_).setRobustKernel huber_kernel_21
  pure { edge_12_ := edge_12_, edge_21_ := edge_21_, shot1_ := shot1, shot2_ := shot2,
         idx1_ := idx1, idx2_ := idx2, lm1_ := lm1, lm2_ := lm2 }

namespace mutual_reproj_edge_wapper

/-- The member function `is_inlier` (lines 61-64). -/
def is_inlier (w : mutual_reproj_edge_wapper) : Bool :=
  w.edge_12_.level == 0 && w.edge_21_.level == 0

/-- The member function `is_outlier` (lines 66-69). -/
def is_outlier (w : mutual_reproj_edge_wapper) : Bool :=
  !w.is_inlier

/-- The member function `set_as_inlier` (lines 71-75): the state after the two calls
`setLevel(0)`. -/
def set_as_inlier (w : mutual_reproj_edge_wapper) : mutual_reproj_edge_wapper :=
  let w := { w with edge_12_ := w.edge_12_.setLevel 0 }
  { w with edge_21_ := w.edge_21_.setLevel 0 }

/-- The member function `set_as_outlier` (lines 77-81): the state after the two calls
`setLevel(1)`. -/
def set_as_outlier (w : mutual_reproj_edge_wapper) : mutual_reproj_edge_wapper :=
  let w := { w with edge_12_ := w.edge_12_.setLevel 1 }
  { w with edge_21_ := w.edge_21_.setLevel 1 }

end mutual_reproj_edge_wapper

/-- One observation `(shot, idx)` is valid for the constructor: the camera model of the shot
is one of Perspective, Fisheye, Equirectangular, `idx` is an index into the undistorted
keypoints, and the octave of the keypoint at `idx` is an index into the table
`inv_level_sigma_sq_`. -/
def valid_observation (s : shot) (idx : Nat) : Bool :=
  s.camera_.model_type_.recognized &&
  match s.undist_keypts_[idx]? with
  | some kp =>
    decide (0 ≤ kp.octave.val) && decide (kp.octave.val < (s.inv_level_sigma_sq_.length : Int))
  | none => false

/-- The scenario of the spec, shot 1: a Perspective camera with `fx = fy = 500` and
`cx = cy = 320`, one keypoint `(330, 240)` at octave 0, inverse variance `1` at octave 0. -/
def scenario_shot1 : shot :=
  { camera_ := camera.base.perspective ⟨500, 500, 320, 320⟩,
    undist_keypts_ := [⟨⟨330, 240⟩, ⟨0, by decide⟩⟩],
    inv_level_sigma_sq_ := [1] }

/-- The scenario of the spec, shot 2: an Equirectangular camera with `cols = 1024` and
`rows = 512`, whose keypoint 1 is `(512, 256)` at octave 1, inverse variance `1/4` at
octave 1. -/
def scenario_shot2 : shot :=
  { camera_ := camera.base.equirectangular ⟨1024, 512⟩,
    undist_keypts_ := [⟨⟨100, 120⟩, ⟨0, by decide⟩⟩, ⟨⟨512, 256⟩, ⟨1, by decide⟩⟩],
    inv_level_sigma_sq_ := [1, 1 / 4] }

/-- The scenario of the spec, landmark 1 at `(0, 0, 5)`. -/
def scenario_lm1 : data.landmark := ⟨⟨0, 0, 5⟩⟩

/-- The scenario of the spec, landmark 2 at `(1, 0, 6)`. -/
def scenario_lm2 : data.landmark := ⟨⟨1, 0, 6⟩⟩

/-- The shared transform vertex of the scenario. -/
def scenario_vtx : transform_vertex_ptr := ⟨4096⟩

/-- The dispatch realised by the forward `switch`: the concrete edge class instantiated for
each tag, none for a tag without a `case` label. -/
def forward_edge_class : camera.model_type_t → Option edge_class
  | camera.model_type_t.Perspective => some edge_class.perspective_forward_reproj_edge
  | camera.model_type_t.Fisheye => some edge_class.perspective_forward_reproj_edge
  | camera.model_type_t.Equirectangular => some edge_class.equirectangular_forward_reproj_edge
  | camera.model_type_t.unrecognized _ => none

/-- The dispatch realised by the backward `switch`. -/
def backward_edge_class : camera.model_type_t → Option edge_class
  | camera.model_type_t.Perspective => some edge_class.perspective_backward_reproj_edge
  | camera.model_type_t.Fisheye => some edge_class.perspective_backward_reproj_edge
  | camera.model_type_t.Equirectangular => some edge_class.equirectangular_backward_reproj_edge
  | camera.model_type_t.unrecognized _ => none

/-- The intrinsic scalars a camera offers to an edge: `fx_, fy_, cx_, cy_` for a Perspective or
Fisheye camera, `cols_, rows_` for an Equirectangular one. -/
def camera_intrinsics : camera.base → Option edge_intrinsics
  | camera.base.perspective c => some (edge_intrinsics.four c.fx_ c.fy_ c.cx_ c.cy_)
  | camera.base.fisheye c => some (edge_intrinsics.four c.fx_ c.fy_ c.cx_ c.cy_)
  | camera.base.equirectangular c => some (edge_intrinsics.two c.cols_ c.rows_)
  | camera.base.other _ => none

/-- Shot 1 of the scenario with a Fisheye camera of the same focal lengths and principal
point. -/
def fisheye_shot1 : shot :=
  { scenario_shot1 with camera_ := camera.base.fisheye ⟨500, 500, 320, 320⟩ }

/-- Shot 2 of the scenario with a Fisheye camera. -/
def fisheye_shot2 : shot :=
  { scenario_shot2 with camera_ := camera.base.fisheye ⟨500, 500, 320, 320⟩ }

/-- The table `inv_level_sigma_sq_` of the shot holds inverse variances `1 / sigma^2`: every
entry is a positive (finite) scalar. -/
def inverse_variances (s : shot) : Bool :=
  s.inv_level_sigma_sq_.all (fun x => decide (0 < x))

/-- The state reached when a caller writes the levels `l1` and `l2` individually through the
public members `edge_12_` and `edge_21_`. -/
def mutual_reproj_edge_wapper.with_levels (w : mutual_reproj_edge_wapper) (l1 l2 : Int) :
    mutual_reproj_edge_wapper :=
  { w with edge_12_ := w.edge_12_.setLevel l1, edge_21_ := w.edge_21_.setLevel l2 }

/-- The four member functions of the state view. -/
inductive state_view_op where
  | is_inlier
  | is_outlier
  | set_as_inlier
  | set_as_outlier
deriving DecidableEq

/-- The member function is one of the two setters. -/
def state_view_op.is_setter : state_view_op → Bool
  | state_view_op.set_as_inlier => true
  | state_view_op.set_as_outlier => true
  | _ => false

/-- One call of a member function of the state view, in state-passing style: the state of
the pair after the call and the value the call returns (none for the two `void` setters).
The two queries are `const` functions that only read the levels. -/
def mutual_reproj_edge_wapper.call (w : mutual_reproj_edge_wapper) :
    state_view_op → mutual_reproj_edge_wapper × Option Bool
  | state_view_op.is_inlier => (w, some w.is_inlier)
  | state_view_op.is_outlier => (w, some w.is_outlier)
  | state_view_op.set_as_inlier => (w.set_as_inlier, none)
  | state_view_op.set_as_outlier => (w.set_as_outlier, none)

/-- The state after a sequence of calls of member functions of the state view. -/
def mutual_reproj_edge_wapper.run (w : mutual_reproj_edge_wapper) :
    List state_view_op → mutual_reproj_edge_wapper
  | [] => w
  | op :: ops => mutual_reproj_edge_wapper.run (w.call op).1 ops

/-- The edge pair of the scenario of the spec, member by member. -/
def scenario_pair : mutual_reproj_edge_wapper :=
  { edge_12_ := base_forward_reproj_edge.perspective
      { measurement := ⟨330, 240⟩, information := ⟨1, 0, 0, 1⟩, vertex0 := some scenario_vtx,
        robustKernel := some ⟨2⟩, level := 0, pos_w_ := ⟨1, 0, 6⟩, fx_ := 500, fy_ := 500,
        cx_ := 320, cy_ := 320 },
    edge_21_ := base_backward_reproj_edge.equirectangular
      { measurement := ⟨512, 256⟩, information := ⟨1 / 4, 0, 0, 1 / 4⟩,
        vertex0 := some scenario_vtx, robustKernel := some ⟨2⟩, level := 0,
        pos_w_ := ⟨0, 0, 5⟩, cols_ := 1024, rows_ := 512 },
    shot1_ := scenario_shot1, shot2_ := scenario_shot2, idx1_ := 0, idx2_ := 1,
    lm1_ := scenario_lm1, lm2_ := scenario_lm2 }

/-- Everything in an edge pair but the two levels is the same in `w'` as in `w`: for each
edge the measurement, the information matrix, the attached 3D point, the intrinsics, the
bound vertex, the robust kernel (hence its threshold) and the concrete class, and the stored
`shot1_`, `idx1_`, `lm1_`, `shot2_`, `idx2_`, `lm2_`. -/
def same_but_levels (w w' : mutual_reproj_edge_wapper) : Prop :=
  (w'.edge_12_.measurement = w.edge_12_.measurement ∧
    w'.edge_12_.information = w.edge_12_.information ∧
    w'.edge_12_.pos_w_ = w.edge_12_.pos_w_ ∧
    w'.edge_12_.intrinsics = w.edge_12_.intrinsics ∧
    w'.edge_12_.vertex0 = w.edge_12_.vertex0 ∧
    w'.edge_12_.robustKernel = w.edge_12_.robustKernel ∧
    w'.edge_12_.dynamic_class = w.edge_12_.dynamic_class) ∧
  (w'.edge_21_.measurement = w.edge_21_.measurement ∧
    w'.edge_21_.information = w.edge_21_.information ∧
    w'.edge_21_.pos_w_ = w.edge_21_.pos_w_ ∧
    w'.edge_21_.intrinsics = w.edge_21_.intrinsics ∧
    w'.edge_21_.vertex0 = w.edge_21_.vertex0 ∧
    w'.edge_21_.robustKernel = w.edge_21_.robustKernel ∧
    w'.edge_21_.dynamic_class = w.edge_21_.dynamic_class) ∧
  (w'.shot1_ = w.shot1_ ∧ w'.idx1_ = w.idx1_ ∧ w'.lm1_ = w.lm1_ ∧ w'.shot2_ = w.shot2_ ∧
    w'.idx2_ = w.idx2_ ∧ w'.lm2_ = w.lm2_)

/-- The kernel objects allocated on the heap, by address: the kernel object at address `a` is
the element at position `a`. -/
abbrev kernel_heap := List RobustKernelHuber

/-- The expression `new ::g2o::RobustKernelHuber()`: a fresh kernel object is allocated, at
an address that no object allocated before has; the result is the pointer to it and the
heap with it. -/
def kernel_heap.alloc (heap : kernel_heap) : Nat × kernel_heap :=
  (heap.length, heap ++ [RobustKernelHuber.new])

/-- The call `ptr->setDelta(delta)`: the kernel object `ptr` points to gets the threshold,
every other object stays as it is. -/
def kernel_heap.setDelta (heap : kernel_heap) (ptr : Nat) (delta : Scalar) : kernel_heap :=
  match heap[ptr]? with
  | some k => heap.set ptr (k.setDelta delta)
  | none => heap

/-- An edge object whose member `_robustKernel` is a pointer into the kernel heap (null when
`none`); `members` holds its other members. -/
structure with_kernel_ptr (E : Type) where
  members : E
  robustKernel : Option Nat

/-- The call `edge->setRobustKernel(ptr)`: the edge stores the pointer it is given. -/
def with_kernel_ptr.setRobustKernel {E : Type} (e : with_kernel_ptr E) (ptr : Nat) :
    with_kernel_ptr E :=
  { e with robustKernel := some ptr }

/-- The two edges the constructor leaves behind, each with its kernel pointer, and the kernel
heap after the constructor. -/
structure edge_pair_on_heap where
  edge_12_ : with_kernel_ptr base_forward_reproj_edge
  edge_21_ : with_kernel_ptr base_backward_reproj_edge
  kernels : kernel_heap

/-- The constructor with the kernel objects on a heap: the steps of `construct` in the same
order, where `new ::g2o::RobustKernelHuber()` allocates an object, `setDelta` writes to the
object the pointer designates, and `setRobustKernel` stores in the edge the very pointer it
is passed (`huber_kernel_12` for `edge_12_`, `huber_kernel_21` for `edge_21_`). -/
def mutual_reproj_edge_wapper.construct_on_heap (heap : kernel_heap) (shot1 : shot)
    (idx1 : Nat) (lm1 : data.landmark) (shot2 : shot) (idx2 : Nat) (lm2 : data.landmark)
    (Sim3_12_vtx : transform_vertex_ptr) (sqrt_chi_sq : Scalar) :
    Except fault edge_pair_on_heap := do
  let edge_12_ ← forward_switch shot1 idx1 lm2 Sim3_12_vtx
  let huber_kernel_12 := heap.alloc.1
  let heap := heap.alloc.2
  let heap := heap.setDelta huber_kernel_12 sqrt_chi_sq
  let edge_12_ : with_kernel_ptr base_forward_reproj_edge := ⟨← through edge_12_, none⟩
  let edge_12_ := edge_12_.setRobustKernel huber_kernel_12
  let edge_21_ ← backward_switch shot2 idx2 lm1 Sim3_12_vtx
  let huber_kernel_21 := heap.alloc.1
  let heap := heap.alloc.2
  let heap := heap.setDelta huber_kernel_21 sqrt_chi_sq
  let edge_21_ : with_kernel_ptr base_backward_reproj_edge := ⟨← through edge_21_, none⟩
  let edge_21_ := edge_21_.setRobustKernel huber_kernel_21
  pure { edge_12_ := edge_12_, edge_21_ := edge_21_, kernels := heap }

/-- Shot 1 of the scenario with the octave of its keypoint replaced by `-1`. -/
def negative_octave_shot1 : shot :=
  { scenario_shot1 with undist_keypts_ := [⟨⟨330, 240⟩, ⟨-1, by decide⟩⟩] }

/-- Shot 2 of the scenario with the octave of its keypoint 1 replaced by `7`, beyond the two
entries of the table. -/
def large_octave_shot2 : shot :=
  { scenario_shot2 with
    undist_keypts_ := [⟨⟨100, 120⟩, ⟨0, by decide⟩⟩, ⟨⟨512, 256⟩, ⟨7, by decide⟩⟩] }

/-- A landmark away from the two landmarks of the scenario. -/
def other_lm : data.landmark := ⟨⟨7, 8, 9⟩⟩

/-! ## Auxiliary lemmas -/

theorem vector_at_of_get? {α : Type} {v : List α} {n : Nat} {a : α} (h : v[n]? = some a) :
    vector_at v n = Except.ok a := by
  simp [vector_at, h]

theorem vector_at_of_get?_none {α : Type} {v : List α} {n : Nat} (h : v[n]? = none) :
    vector_at v n = Except.error fault.out_of_range := by
  simp [vector_at, h]

theorem to_size_t_of_nonneg (i : c_int) (h : 0 ≤ i.val) : to_size_t i = i.val.toNat := by
  have h2 : i.val < (2 ^ 64 : Int) := lt_trans i.property.2 (by norm_num)
  unfold to_size_t
  rw [Int.emod_eq_of_lt h h2]

theorem valid_observation_iff (s : shot) (idx : Nat) :
    valid_observation s idx = true ↔
      s.camera_.model_type_.recognized = true ∧
      ∃ kp, s.undist_keypts_[idx]? = some kp ∧ 0 ≤ kp.octave.val ∧
        kp.octave.val < (s.inv_level_sigma_sq_.length : Int) := by
  unfold valid_observation
  cases hk : s.undist_keypts_[idx]? with
  | none => simp
  | some kp => simp

theorem valid_observation_lookup {s : shot} {idx : Nat} (h : valid_observation s idx = true) :
    ∃ kp sg, s.camera_.model_type_.recognized = true ∧
      s.undist_keypts_[idx]? = some kp ∧ 0 ≤ kp.octave.val ∧
      s.inv_level_sigma_sq_[kp.octave.val.toNat]? = some sg ∧
      vector_at s.undist_keypts_ idx = Except.ok kp ∧
      vector_at s.inv_level_sigma_sq_ (to_size_t kp.octave) = Except.ok sg := by
  obtain ⟨hrec, kp, hkp, h0, hlt⟩ := (valid_observation_iff s idx).mp h
  have hlt2 : kp.octave.val.toNat < s.inv_level_sigma_sq_.length := by omega
  refine ⟨kp, s.inv_level_sigma_sq_[kp.octave.val.toNat], hrec, hkp, h0, ?_, vector_at_of_get? hkp, ?_⟩
  · exact List.getElem?_eq_getElem hlt2
  · rw [to_size_t_of_nonneg _ h0]
    exact vector_at_of_get? (List.getElem?_eq_getElem hlt2)

theorem forward_switch_valid (s : shot) (idx : Nat) (lm : data.landmark)
    (vtx : transform_vertex_ptr) (kp : KeyPoint) (sg : Scalar)
    (hrec : s.camera_.model_type_.recognized = true)
    (hkp : vector_at s.undist_keypts_ idx = Except.ok kp)
    (hsg : vector_at s.inv_level_sigma_sq_ (to_size_t kp.octave) = Except.ok sg) :
    ∃ e, forward_switch s idx lm vtx = Except.ok (some e) ∧
      e.measurement = ⟨kp.pt.x, kp.pt.y⟩ ∧ e.information = ⟨sg, 0, 0, sg⟩ ∧
      e.pos_w_ = lm.get_pos_in_world ∧ e.vertex0 = some vtx ∧ e.level = 0 ∧
      e.robustKernel = none ∧ some e.intrinsics = camera_intrinsics s.camera_ ∧
      some e.dynamic_class = forward_edge_class s.camera_.model_type_ := by
  unfold forward_switch
  cases hc : s.camera_ with
  | perspective c =>
    simp [hkp, hsg, bind, Except.bind, pure, Except.pure, base_forward_reproj_edge.measurement,
      base_forward_reproj_edge.information, base_forward_reproj_edge.pos_w_,
      base_forward_reproj_edge.vertex0, base_forward_reproj_edge.level,
      base_forward_reproj_edge.robustKernel, base_forward_reproj_edge.intrinsics,
      base_forward_reproj_edge.dynamic_class, base_forward_reproj_edge.toBase,
      BaseUnaryEdge.setMeasurement, BaseUnaryEdge.setInformation, BaseUnaryEdge.setVertex,
      perspective_forward_reproj_edge.new, BaseUnaryEdge.new, Mat22_t.Identity,
      Mat22_t.mul_scalar, camera_intrinsics, forward_edge_class, camera.base.model_type_]
  | fisheye c =>
    simp [hkp, hsg, bind, Except.bind, pure, Except.pure, base_forward_reproj_edge.measurement,
      base_forward_reproj_edge.information, base_forward_reproj_edge.pos_w_,
      base_forward_reproj_edge.vertex0, base_forward_reproj_edge.level,
      base_forward_reproj_edge.robustKernel, base_forward_reproj_edge.intrinsics,
      base_forward_reproj_edge.dynamic_class, base_forward_reproj_edge.toBase,
      BaseUnaryEdge.setMeasurement, BaseUnaryEdge.setInformation, BaseUnaryEdge.setVertex,
      perspective_forward_reproj_edge.new, BaseUnaryEdge.new, Mat22_t.Identity,
      Mat22_t.mul_scalar, camera_intrinsics, forward_edge_class, camera.base.model_type_]
  | equirectangular c =>
    simp [hkp, hsg, bind, Except.bind, pure, Except.pure, base_forward_reproj_edge.measurement,
      base_forward_reproj_edge.information, base_forward_reproj_edge.pos_w_,
      base_forward_reproj_edge.vertex0, base_forward_reproj_edge.level,
      base_forward_reproj_edge.robustKernel, base_forward_reproj_edge.intrinsics,
      base_forward_reproj_edge.dynamic_class, base_forward_reproj_edge.toBase,
      BaseUnaryEdge.setMeasurement, BaseUnaryEdge.setInformation, BaseUnaryEdge.setVertex,
      equirectangular_forward_reproj_edge.new, BaseUnaryEdge.new, Mat22_t.Identity,
      Mat22_t.mul_scalar, camera_intrinsics, forward_edge_class, camera.base.model_type_]
  | other raw =>
    rw [hc] at hrec
    simp [camera.base.model_type_, camera.model_type_t.recognized] at hrec

theorem backward_switch_valid (s : shot) (idx : Nat) (lm : data.landmark)
    (vtx : transform_vertex_ptr) (kp : KeyPoint) (sg : Scalar)
    (hrec : s.camera_.model_type_.recognized = true)
    (hkp : vector_at s.undist_keypts_ idx = Except.ok kp)
    (hsg : vector_at s.inv_level_sigma_sq_ (to_size_t kp.octave) = Except.ok sg) :
    ∃ e, backward_switch s idx lm vtx = Except.ok (some e) ∧
      e.measurement = ⟨kp.pt.x, kp.pt.y⟩ ∧ e.information = ⟨sg, 0, 0, sg⟩ ∧
      e.pos_w_ = lm.get_pos_in_world ∧ e.vertex0 = some vtx ∧ e.level = 0 ∧
      e.robustKernel = none ∧ some e.intrinsics = camera_intrinsics s.camera_ ∧
      some e.dynamic_class = backward_edge_class s.camera_.model_type_ := by
  unfold backward_switch
  cases hc : s.camera_ with
  | perspective c =>
    simp [hkp, hsg, bind, Except.bind, pure, Except.pure, base_backward_reproj_edge.measurement,
      base_backward_reproj_edge.information, base_backward_reproj_edge.pos_w_,
      base_backward_reproj_edge.vertex0, base_backward_reproj_edge.level,
      base_backward_reproj_edge.robustKernel, base_backward_reproj_edge.intrinsics,
      base_backward_reproj_edge.dynamic_class, base_backward_reproj_edge.toBase,
      BaseUnaryEdge.setMeasurement, BaseUnaryEdge.setInformation, BaseUnaryEdge.setVertex,
      perspective_backward_reproj_edge.new, BaseUnaryEdge.new, Mat22_t.Identity,
      Mat22_t.mul_scalar, camera_intrinsics, backward_edge_class, camera.base.model_type_]
  | fisheye c =>
    simp [hkp, hsg, bind, Except.bind, pure, Except.pure, base_backward_reproj_edge.measurement,
      base_backward_reproj_edge.information, base_backward_reproj_edge.pos_w_,
      base_backward_reproj_edge.vertex0, base_backward_reproj_edge.level,
      base_backward_reproj_edge.robustKernel, base_backward_reproj_edge.intrinsics,
      base_backward_reproj_edge.dynamic_class, base_backward_reproj_edge.toBase,
      BaseUnaryEdge.setMeasurement, BaseUnaryEdge.setInformation, BaseUnaryEdge.setVertex,
      perspective_backward_reproj_edge.new, BaseUnaryEdge.new, Mat22_t.Identity,
      Mat22_t.mul_scalar, camera_intrinsics, backward_edge_class, camera.base.model_type_]
  | equirectangular c =>
    simp [hkp, hsg, bind, Except.bind, pure, Except.pure, base_backward_reproj_edge.measurement,
      base_backward_reproj_edge.information, base_backward_reproj_edge.pos_w_,
      base_backward_reproj_edge.vertex0, base_backward_reproj_edge.level,
      base_backward_reproj_edge.robustKernel, base_backward_reproj_edge.intrinsics,
      base_backward_reproj_edge.dynamic_class, base_backward_reproj_edge.toBase,
      BaseUnaryEdge.setMeasurement, BaseUnaryEdge.setInformation, BaseUnaryEdge.setVertex,
      equirectangular_backward_reproj_edge.new, BaseUnaryEdge.new, Mat22_t.Identity,
      Mat22_t.mul_scalar, camera_intrinsics, backward_edge_class, camera.base.model_type_]
  | other raw =>
    rw [hc] at hrec
    simp [camera.base.model_type_, camera.model_type_t.recognized] at hrec

/-! Attaching a kernel or writing a level through the base pointer touches that member only. -/

theorem forward_setRobustKernel_frame (e : base_forward_reproj_edge) (k : RobustKernelHuber) :
    (e.setRobustKernel k).robustKernel = some k ∧
      (e.setRobustKernel k).measurement = e.measurement ∧
      (e.setRobustKernel k).information = e.information ∧
      (e.setRobustKernel k).pos_w_ = e.pos_w_ ∧
      (e.setRobustKernel k).vertex0 = e.vertex0 ∧
      (e.setRobustKernel k).level = e.level ∧
      (e.setRobustKernel k).intrinsics = e.intrinsics ∧
      (e.setRobustKernel k).dynamic_class = e.dynamic_class := by
  cases e <;>
    simp [base_forward_reproj_edge.setRobustKernel, base_forward_reproj_edge.robustKernel,
      base_forward_reproj_edge.measurement, base_forward_reproj_edge.information,
      base_forward_reproj_edge.pos_w_, base_forward_reproj_edge.vertex0,
      base_forward_reproj_edge.level, base_forward_reproj_edge.intrinsics,
      base_forward_reproj_edge.dynamic_class, base_forward_reproj_edge.toBase,
      BaseUnaryEdge.setRobustKernel]

theorem backward_setRobustKernel_frame (e : base_backward_reproj_edge) (k : RobustKernelHuber) :
    (e.setRobustKernel k).robustKernel = some k ∧
      (e.setRobustKernel k).measurement = e.measurement ∧
      (e.setRobustKernel k).information = e.information ∧
      (e.setRobustKernel k).pos_w_ = e.pos_w_ ∧
      (e.setRobustKernel k).vertex0 = e.vertex0 ∧
      (e.setRobustKernel k).level = e.level ∧
      (e.setRobustKernel k).intrinsics = e.intrinsics ∧
      (e.setRobustKernel k).dynamic_class = e.dynamic_class := by
  cases e <;>
    simp [base_backward_reproj_edge.setRobustKernel, base_backward_reproj_edge.robustKernel,
      base_backward_reproj_edge.measurement, base_backward_reproj_edge.information,
      base_backward_reproj_edge.pos_w_, base_backward_reproj_edge.vertex0,
      base_backward_reproj_edge.level, base_backward_reproj_edge.intrinsics,
      base_backward_reproj_edge.dynamic_class, base_backward_reproj_edge.toBase,
      BaseUnaryEdge.setRobustKernel]

theorem forward_setLevel_frame (e : base_forward_reproj_edge) (l : Int) :
    (e.setLevel l).level = l ∧
      (e.setLevel l).measurement = e.measurement ∧
      (e.setLevel l).information = e.information ∧
      (e.setLevel l).pos_w_ = e.pos_w_ ∧
      (e.setLevel l).vertex0 = e.vertex0 ∧
      (e.setLevel l).robustKernel = e.robustKernel ∧
      (e.setLevel l).intrinsics = e.intrinsics ∧
      (e.setLevel l).dynamic_class = e.dynamic_class := by
  cases e <;>
    simp [base_forward_reproj_edge.setLevel, base_forward_reproj_edge.robustKernel,
      base_forward_reproj_edge.measurement, base_forward_reproj_edge.information,
      base_forward_reproj_edge.pos_w_, base_forward_reproj_edge.vertex0,
      base_forward_reproj_edge.level, base_forward_reproj_edge.intrinsics,
      base_forward_reproj_edge.dynamic_class, base_forward_reproj_edge.toBase,
      BaseUnaryEdge.setLevel]

theorem backward_setLevel_frame (e : base_backward_reproj_edge) (l : Int) :
    (e.setLevel l).level = l ∧
      (e.setLevel l).measurement = e.measurement ∧
      (e.setLevel l).information = e.information ∧
      (e.setLevel l).pos_w_ = e.pos_w_ ∧
      (e.setLevel l).vertex0 = e.vertex0 ∧
      (e.setLevel l).robustKernel = e.robustKernel ∧
      (e.setLevel l).intrinsics = e.intrinsics ∧
      (e.setLevel l).dynamic_class = e.dynamic_class := by
  cases e <;>
    simp [base_backward_reproj_edge.setLevel, base_backward_reproj_edge.robustKernel,
      base_backward_reproj_edge.measurement, base_backward_reproj_edge.information,
      base_backward_reproj_edge.pos_w_, base_backward_reproj_edge.vertex0,
      base_backward_reproj_edge.level, base_backward_reproj_edge.intrinsics,
      base_backward_reproj_edge.dynamic_class, base_backward_reproj_edge.toBase,
      BaseUnaryEdge.setLevel]

theorem construct_of_switch {shot1 shot2 : shot} {idx1 idx2 : Nat} {lm1 lm2 : data.landmark}
    {vtx : transform_vertex_ptr} (sq : Scalar) {e12 : base_forward_reproj_edge}
    {e21 : base_backward_reproj_edge}
    (hf : forward_switch shot1 idx1 lm2 vtx = Except.ok (some e12))
    (hb : backward_switch shot2 idx2 lm1 vtx = Except.ok (some e21)) :
    mutual_reproj_edge_wapper.construct shot1 idx1 lm1 shot2 idx2 lm2 vtx sq =
      Except.ok
        { edge_12_ := e12.setRobustKernel ⟨sq⟩, edge_21_ := e21.setRobustKernel ⟨sq⟩,
          shot1_ := shot1, shot2_ := shot2, idx1_ := idx1, idx2_ := idx2, lm1_ := lm1,
          lm2_ := lm2 } := by
  simp [mutual_reproj_edge_wapper.construct, hf, hb, through, bind, Except.bind, pure,
    Except.pure, RobustKernelHuber.setDelta]

/-- On a valid pair of observations the constructor returns a wrapper, and every member of
its two edges is determined as follows by the keypoints `kp1`, `kp2` selected by the indices
and the table entries `sg1`, `sg2` selected by their octaves. -/
theorem construct_valid (shot1 : shot) (idx1 : Nat) (lm1 : data.landmark) (shot2 : shot)
    (idx2 : Nat) (lm2 : data.landmark) (vtx : transform_vertex_ptr) (sq : Scalar)
    (h1 : valid_observation shot1 idx1 = true) (h2 : valid_observation shot2 idx2 = true) :
    ∃ w kp1 sg1 kp2 sg2,
      mutual_reproj_edge_wapper.construct shot1 idx1 lm1 shot2 idx2 lm2 vtx sq = Except.ok w ∧
      (shot1.undist_keypts_[idx1]? = some kp1 ∧ 0 ≤ kp1.octave.val ∧
        shot1.inv_level_sigma_sq_[kp1.octave.val.toNat]? = some sg1) ∧
      (shot2.undist_keypts_[idx2]? = some kp2 ∧ 0 ≤ kp2.octave.val ∧
        shot2.inv_level_sigma_sq_[kp2.octave.val.toNat]? = some sg2) ∧
      (w.edge_12_.measurement = ⟨kp1.pt.x, kp1.pt.y⟩ ∧ w.edge_12_.information = ⟨sg1, 0, 0, sg1⟩ ∧
        w.edge_12_.pos_w_ = lm2.get_pos_in_world ∧ w.edge_12_.vertex0 = some vtx ∧
        w.edge_12_.level = 0 ∧ w.edge_12_.robustKernel = some ⟨sq⟩ ∧
        some w.edge_12_.intrinsics = camera_intrinsics shot1.camera_ ∧
        some w.edge_12_.dynamic_class = forward_edge_class shot1.camera_.model_type_) ∧
      (w.edge_21_.measurement = ⟨kp2.pt.x, kp2.pt.y⟩ ∧ w.edge_21_.information = ⟨sg2, 0, 0, sg2⟩ ∧
        w.edge_21_.pos_w_ = lm1.get_pos_in_world ∧ w.edge_21_.vertex0 = some vtx ∧
        w.edge_21_.level = 0 ∧ w.edge_21_.robustKernel = some ⟨sq⟩ ∧
        some w.edge_21_.intrinsics = camera_intrinsics shot2.camera_ ∧
        some w.edge_21_.dynamic_class = backward_edge_class shot2.camera_.model_type_) ∧
      (w.shot1_ = shot1 ∧ w.idx1_ = idx1 ∧ w.lm1_ = lm1 ∧ w.shot2_ = shot2 ∧ w.idx2_ = idx2 ∧
        w.lm2_ = lm2) := by
  obtain ⟨kp1, sg1, hrec1, hk1, h01, hs1, hv1, hvs1⟩ := valid_observation_lookup h1
  obtain ⟨kp2, sg2, hrec2, hk2, h02, hs2, hv2, hvs2⟩ := valid_observation_lookup h2
  obtain ⟨e12, hf, hm1, hi1, hp1, hx1, hl1, hr1, hin1, hcl1⟩ :=
    forward_switch_valid shot1 idx1 lm2 vtx kp1 sg1 hrec1 hv1 hvs1
  obtain ⟨e21, hb, hm2, hi2, hp2, hx2, hl2, hr2, hin2, hcl2⟩ :=
    backward_switch_valid shot2 idx2 lm1 vtx kp2 sg2 hrec2 hv2 hvs2
  obtain ⟨fk, fm, fi, fp, fv, fl, fin, fc⟩ := forward_setRobustKernel_frame e12 ⟨sq⟩
  obtain ⟨bk, bm, bi, bp, bv, bl, bin, bc⟩ := backward_setRobustKernel_frame e21 ⟨sq⟩
  refine ⟨_, kp1, sg1, kp2, sg2, construct_of_switch sq hf hb, ⟨hk1, h01, hs1⟩, ⟨hk2, h02, hs2⟩,
    ?_, ?_, ?_⟩
  · exact ⟨fm.trans hm1, fi.trans hi1, fp.trans hp1, fv.trans hx1, fl.trans hl1, fk,
      by rw [fin]; exact hin1, by rw [fc]; exact hcl1⟩
  · exact ⟨bm.trans hm2, bi.trans hi2, bp.trans hp2, bv.trans hx2, bl.trans hl2, bk,
      by rw [bin]; exact hin2, by rw [bc]; exact hcl2⟩
  · exact ⟨rfl, rfl, rfl, rfl, rfl, rfl⟩

theorem scaled_identity_quad (sg : Scalar) (v : Vec2_t) :
    (Mat22_t.mk sg 0 0 sg).quad v = sg * (v.x * v.x + v.y * v.y) := by
  simp only [Mat22_t.quad]
  ring

theorem scaled_identity_posdef (sg : Scalar) :
    0 < sg ↔ ∀ v : Vec2_t, v ≠ ⟨0, 0⟩ → 0 < (Mat22_t.mk sg 0 0 sg).quad v := by
  constructor
  · intro hsg v hv
    rw [scaled_identity_quad]
    have hpos : 0 < v.x * v.x + v.y * v.y := by
      by_contra hcon
      have hle : v.x * v.x + v.y * v.y ≤ 0 := not_lt.mp hcon
      have hx : v.x = 0 := by nlinarith [mul_self_nonneg v.x, mul_self_nonneg v.y]
      have hy : v.y = 0 := by nlinarith [mul_self_nonneg v.x, mul_self_nonneg v.y]
      apply hv
      cases v
      simp_all
    exact mul_pos hsg hpos
  · intro h
    have h1 := h ⟨1, 0⟩ (by simp)
    rw [scaled_identity_quad] at h1
    simpa using h1

theorem forward_class_eq (m : camera.model_type_t) (c : edge_class)
    (hrec : m.recognized = true) (h : some c = forward_edge_class m) :
    c = (if m = camera.model_type_t.Equirectangular
          then edge_class.equirectangular_forward_reproj_edge
          else edge_class.perspective_forward_reproj_edge) := by
  cases m <;> simp_all [forward_edge_class, camera.model_type_t.recognized]

theorem backward_class_eq (m : camera.model_type_t) (c : edge_class)
    (hrec : m.recognized = true) (h : some c = backward_edge_class m) :
    c = (if m = camera.model_type_t.Equirectangular
          then edge_class.equirectangular_backward_reproj_edge
          else edge_class.perspective_backward_reproj_edge) := by
  cases m <;> simp_all [backward_edge_class, camera.model_type_t.recognized]

theorem inverse_variances_pos {s : shot} {n : Nat} {sg : Scalar}
    (hp : inverse_variances s = true) (h : s.inv_level_sigma_sq_[n]? = some sg) : 0 < sg := by
  unfold inverse_variances at hp
  rw [List.all_eq_true] at hp
  have hmem : sg ∈ s.inv_level_sigma_sq_ := List.getElem?_mem h
  simpa using hp sg hmem

/-! ## The edge-pair builder -/

/-- Claim C1 (cross-wiring): on every valid input, whatever the two camera-model variants,
the constructor returns a pair whose forward edge `edge_12_` carries the world position of
`lm2` as its 3D point and whose backward edge `edge_21_` carries the world position of
`lm1`. -/
theorem construct_cross_wiring (shot1 : shot) (idx1 : Nat) (lm1 : data.landmark) (shot2 : shot)
    (idx2 : Nat) (lm2 : data.landmark) (vtx : transform_vertex_ptr) (sq : Scalar)
    (h1 : valid_observation shot1 idx1 = true) (h2 : valid_observation shot2 idx2 = true) :
    ∃ w, mutual_reproj_edge_wapper.construct shot1 idx1 lm1 shot2 idx2 lm2 vtx sq = Except.ok w ∧
      w.edge_12_.pos_w_ = lm2.get_pos_in_world ∧ w.edge_21_.pos_w_ = lm1.get_pos_in_world := by
  obtain ⟨w, kp1, sg1, kp2, sg2, hw, _, _, hf, hb, _⟩ :=
    construct_valid shot1 idx1 lm1 shot2 idx2 lm2 vtx sq h1 h2
  exact ⟨w, hw, hf.2.2.1, hb.2.2.1⟩

/-- Claim C1 at the scenario of the spec: the forward edge carries `(1, 0, 6)`, the position
of landmark 2, and the backward edge `(0, 0, 5)`, the position of landmark 1. -/
theorem construct_cross_wiring_scenario :
    valid_observation scenario_shot1 0 = true ∧ valid_observation scenario_shot2 1 = true ∧
    ∃ w, mutual_reproj_edge_wapper.construct scenario_shot1 0 scenario_lm1 scenario_shot2 1
        scenario_lm2 scenario_vtx 2 = Except.ok w ∧
      w.edge_12_.pos_w_ = scenario_lm2.get_pos_in_world ∧
      w.edge_21_.pos_w_ = scenario_lm1.get_pos_in_world :=
  ⟨by decide, by decide,
    construct_cross_wiring scenario_shot1 0 scenario_lm1 scenario_shot2 1 scenario_lm2
      scenario_vtx 2 (by decide) (by decide)⟩

/-- Claim C2 (measurements): on every valid input, for each camera-model variant of each
shot, the constructor returns a pair whose forward edge has as measurement exactly the
`(x, y)` of the undistorted keypoint of `shot1` at `idx1`, and whose backward edge has exactly
the `(x, y)` of the undistorted keypoint of `shot2` at `idx2`. -/
theorem construct_measurements (shot1 : shot) (idx1 : Nat) (lm1 : data.landmark) (shot2 : shot)
    (idx2 : Nat) (lm2 : data.landmark) (vtx : transform_vertex_ptr) (sq : Scalar)
    (h1 : valid_observation shot1 idx1 = true) (h2 : valid_observation shot2 idx2 = true) :
    ∃ w kp1 kp2,
      mutual_reproj_edge_wapper.construct shot1 idx1 lm1 shot2 idx2 lm2 vtx sq = Except.ok w ∧
      shot1.undist_keypts_[idx1]? = some kp1 ∧ shot2.undist_keypts_[idx2]? = some kp2 ∧
      w.edge_12_.measurement = ⟨kp1.pt.x, kp1.pt.y⟩ ∧
      w.edge_21_.measurement = ⟨kp2.pt.x, kp2.pt.y⟩ := by
  obtain ⟨w, kp1, sg1, kp2, sg2, hw, hk1, hk2, hf, hb, _⟩ :=
    construct_valid shot1 idx1 lm1 shot2 idx2 lm2 vtx sq h1 h2
  exact ⟨w, kp1, kp2, hw, hk1.1, hk2.1, hf.1, hb.1⟩

/-- Claim C2 at the scenario of the spec (Perspective shot 1, Equirectangular shot 2). -/
theorem construct_measurements_scenario :
    valid_observation scenario_shot1 0 = true ∧ valid_observation scenario_shot2 1 = true ∧
    ∃ w kp1 kp2,
      mutual_reproj_edge_wapper.construct scenario_shot1 0 scenario_lm1 scenario_shot2 1
        scenario_lm2 scenario_vtx 2 = Except.ok w ∧
      scenario_shot1.undist_keypts_[0]? = some kp1 ∧
      scenario_shot2.undist_keypts_[1]? = some kp2 ∧
      w.edge_12_.measurement = ⟨kp1.pt.x, kp1.pt.y⟩ ∧
      w.edge_21_.measurement = ⟨kp2.pt.x, kp2.pt.y⟩ :=
  ⟨by decide, by decide,
    construct_measurements scenario_shot1 0 scenario_lm1 scenario_shot2 1 scenario_lm2
      scenario_vtx 2 (by decide) (by decide)⟩

/-- Claim C3: for each camera-model variant and every valid input, the tables of the two
shots holding inverse variances (positive finite scalars), each edge has as information
matrix the identity scaled by the entry of its own shot's `inv_level_sigma_sq_` at the
octave of the keypoint used (`shot1`, `idx1` for the forward edge, `shot2`, `idx2` for the
backward edge): both diagonal entries equal that entry, both off-diagonal entries are 0, the
matrix is symmetric, and the scaling is positive (the entry is positive and the matrix is
positive definite). -/
theorem construct_information (shot1 : shot) (idx1 : Nat) (lm1 : data.landmark) (shot2 : shot)
    (idx2 : Nat) (lm2 : data.landmark) (vtx : transform_vertex_ptr) (sq : Scalar)
    (h1 : valid_observation shot1 idx1 = true) (h2 : valid_observation shot2 idx2 = true)
    (hp1 : inverse_variances shot1 = true) (hp2 : inverse_variances shot2 = true) :
    ∃ w kp1 sg1 kp2 sg2,
      mutual_reproj_edge_wapper.construct shot1 idx1 lm1 shot2 idx2 lm2 vtx sq = Except.ok w ∧
      (shot1.undist_keypts_[idx1]? = some kp1 ∧ 0 ≤ kp1.octave.val ∧
        shot1.inv_level_sigma_sq_[kp1.octave.val.toNat]? = some sg1) ∧
      (shot2.undist_keypts_[idx2]? = some kp2 ∧ 0 ≤ kp2.octave.val ∧
        shot2.inv_level_sigma_sq_[kp2.octave.val.toNat]? = some sg2) ∧
      (w.edge_12_.information = Mat22_t.Identity.mul_scalar sg1 ∧
        w.edge_12_.information.m00 = sg1 ∧ w.edge_12_.information.m11 = sg1 ∧
        w.edge_12_.information.m01 = 0 ∧ w.edge_12_.information.m10 = 0 ∧
        w.edge_12_.information.transpose = w.edge_12_.information ∧
        0 < sg1 ∧ 0 < w.edge_12_.information.m00 ∧ 0 < w.edge_12_.information.m11 ∧
        ∀ v : Vec2_t, v ≠ ⟨0, 0⟩ → 0 < w.edge_12_.information.quad v) ∧
      (w.edge_21_.information = Mat22_t.Identity.mul_scalar sg2 ∧
        w.edge_21_.information.m00 = sg2 ∧ w.edge_21_.information.m11 = sg2 ∧
        w.edge_21_.information.m01 = 0 ∧ w.edge_21_.information.m10 = 0 ∧
        w.edge_21_.information.transpose = w.edge_21_.information ∧
        0 < sg2 ∧ 0 < w.edge_21_.information.m00 ∧ 0 < w.edge_21_.information.m11 ∧
        ∀ v : Vec2_t, v ≠ ⟨0, 0⟩ → 0 < w.edge_21_.information.quad v) := by
  obtain ⟨w, kp1, sg1, kp2, sg2, hw, hk1, hk2, hf, hb, _⟩ :=
    construct_valid shot1 idx1 lm1 shot2 idx2 lm2 vtx sq h1 h2
  have hs1 : 0 < sg1 := inverse_variances_pos hp1 hk1.2.2
  have hs2 : 0 < sg2 := inverse_variances_pos hp2 hk2.2.2
  refine ⟨w, kp1, sg1, kp2, sg2, hw, hk1, hk2, ?_, ?_⟩
  · rw [hf.2.1]
    exact ⟨by simp [Mat22_t.Identity, Mat22_t.mul_scalar], rfl, rfl, rfl, rfl, rfl, hs1, hs1,
      hs1, (scaled_identity_posdef sg1).mp hs1⟩
  · rw [hb.2.1]
    exact ⟨by simp [Mat22_t.Identity, Mat22_t.mul_scalar], rfl, rfl, rfl, rfl, rfl, hs2, hs2,
      hs2, (scaled_identity_posdef sg2).mp hs2⟩

/-- Claim C3 at the scenario of the spec: the forward information matrix is the identity
scaled by `1`, the backward one the identity scaled by `1/4`. -/
theorem construct_information_scenario :
    valid_observation scenario_shot1 0 = true ∧ valid_observation scenario_shot2 1 = true ∧
    inverse_variances scenario_shot1 = true ∧ inverse_variances scenario_shot2 = true ∧
    ∃ w, mutual_reproj_edge_wapper.construct scenario_shot1 0 scenario_lm1 scenario_shot2 1
        scenario_lm2 scenario_vtx 2 = Except.ok w ∧
      w.edge_12_.information = Mat22_t.Identity.mul_scalar 1 ∧
      w.edge_21_.information = Mat22_t.Identity.mul_scalar (1 / 4) ∧
      w.edge_12_.information.transpose = w.edge_12_.information ∧
      w.edge_21_.information.transpose = w.edge_21_.information ∧
      (∀ v : Vec2_t, v ≠ ⟨0, 0⟩ → 0 < w.edge_12_.information.quad v) ∧
      (∀ v : Vec2_t, v ≠ ⟨0, 0⟩ → 0 < w.edge_21_.information.quad v) := by
  have hq1 : inverse_variances scenario_shot1 = true := by
    simp [inverse_variances, scenario_shot1]
  have hq2 : inverse_variances scenario_shot2 = true := by
    simp [inverse_variances, scenario_shot2]
  refine ⟨by decide, by decide, hq1, hq2, ?_⟩
  obtain ⟨w, kp1, sg1, kp2, sg2, hw, hk1, hk2, hf, hb⟩ :=
    construct_information scenario_shot1 0 scenario_lm1 scenario_shot2 1 scenario_lm2
      scenario_vtx 2 (by decide) (by decide) hq1 hq2
  have e1 : kp1 = ⟨⟨330, 240⟩, ⟨0, by decide⟩⟩ := by
    simpa [scenario_shot1] using hk1.1.symm
  have e2 : kp2 = ⟨⟨512, 256⟩, ⟨1, by decide⟩⟩ := by
    simpa [scenario_shot2] using hk2.1.symm
  subst e1 e2
  have g1 : sg1 = 1 := by
    simpa [scenario_shot1] using hk1.2.2.symm
  have g2 : sg2 = 1 / 4 := by
    simpa [scenario_shot2] using hk2.2.2.symm
  subst g1 g2
  exact ⟨w, hw, hf.1, hb.1, hf.2.2.2.2.2.1, hb.2.2.2.2.2.1, hf.2.2.2.2.2.2.2.2.2,
    hb.2.2.2.2.2.2.2.2.2⟩

/-- Claim C4 (intrinsics follow the edge's own shot): on every valid input the forward edge
holds the intrinsics of the camera of `shot1` and the backward edge those of the camera of
`shot2`: the four scalars `fx, fy, cx, cy` copied from a Perspective or Fisheye camera, the
two scalars `cols, rows` copied from an Equirectangular camera; and the other direction has
no influence: replacing `shot2`, `idx2` and the remaining arguments by any other valid ones
leaves the class and intrinsics of the forward edge unchanged, and symmetrically for the
backward edge. -/
theorem construct_intrinsics (shot1 : shot) (idx1 : Nat) (lm1 : data.landmark) (shot2 : shot)
    (idx2 : Nat) (lm2 : data.landmark) (vtx : transform_vertex_ptr) (sq : Scalar)
    (h1 : valid_observation shot1 idx1 = true) (h2 : valid_observation shot2 idx2 = true) :
    ∃ w, mutual_reproj_edge_wapper.construct shot1 idx1 lm1 shot2 idx2 lm2 vtx sq = Except.ok w ∧
      ((∀ c, shot1.camera_ = camera.base.perspective c →
          w.edge_12_.intrinsics = edge_intrinsics.four c.fx_ c.fy_ c.cx_ c.cy_) ∧
        (∀ c, shot1.camera_ = camera.base.fisheye c →
          w.edge_12_.intrinsics = edge_intrinsics.four c.fx_ c.fy_ c.cx_ c.cy_) ∧
        (∀ c, shot1.camera_ = camera.base.equirectangular c →
          w.edge_12_.intrinsics = edge_intrinsics.two c.cols_ c.rows_)) ∧
      ((∀ c, shot2.camera_ = camera.base.perspective c →
          w.edge_21_.intrinsics = edge_intrinsics.four c.fx_ c.fy_ c.cx_ c.cy_) ∧
        (∀ c, shot2.camera_ = camera.base.fisheye c →
          w.edge_21_.intrinsics = edge_intrinsics.four c.fx_ c.fy_ c.cx_ c.cy_) ∧
        (∀ c, shot2.camera_ = camera.base.equirectangular c →
          w.edge_21_.intrinsics = edge_intrinsics.two c.cols_ c.rows_)) ∧
      (∀ (shot2' : shot) (idx2' : Nat) (lm1' lm2' : data.landmark) (vtx' : transform_vertex_ptr)
          (sq' : Scalar), valid_observation shot2' idx2' = true →
        ∃ w', mutual_reproj_edge_wapper.construct shot1 idx1 lm1' shot2' idx2' lm2' vtx' sq' =
            Except.ok w' ∧
          w'.edge_12_.intrinsics = w.edge_12_.intrinsics ∧
          w'.edge_12_.dynamic_class = w.edge_12_.dynamic_class) ∧
      (∀ (shot1' : shot) (idx1' : Nat) (lm1' lm2' : data.landmark) (vtx' : transform_vertex_ptr)
          (sq' : Scalar), valid_observation shot1' idx1' = true →
        ∃ w', mutual_reproj_edge_wapper.construct shot1' idx1' lm1' shot2 idx2 lm2' vtx' sq' =
            Except.ok w' ∧
          w'.edge_21_.intrinsics = w.edge_21_.intrinsics ∧
          w'.edge_21_.dynamic_class = w.edge_21_.dynamic_class) := by
  obtain ⟨w, kp1, sg1, kp2, sg2, hw, _, _, hf, hb, _⟩ :=
    construct_valid shot1 idx1 lm1 shot2 idx2 lm2 vtx sq h1 h2
  have hfi := hf.2.2.2.2.2.2.1
  have hfc := hf.2.2.2.2.2.2.2
  have hbi := hb.2.2.2.2.2.2.1
  have hbc := hb.2.2.2.2.2.2.2
  refine ⟨w, hw, ⟨?_, ?_, ?_⟩, ⟨?_, ?_, ?_⟩, ?_, ?_⟩
  · intro c hc
    rw [hc] at hfi
    simpa [camera_intrinsics] using hfi
  · intro c hc
    rw [hc] at hfi
    simpa [camera_intrinsics] using hfi
  · intro c hc
    rw [hc] at hfi
    simpa [camera_intrinsics] using hfi
  · intro c hc
    rw [hc] at hbi
    simpa [camera_intrinsics] using hbi
  · intro c hc
    rw [hc] at hbi
    simpa [camera_intrinsics] using hbi
  · intro c hc
    rw [hc] at hbi
    simpa [camera_intrinsics] using hbi
  · intro shot2' idx2' lm1' lm2' vtx' sq' h2'
    obtain ⟨w', _, _, _, _, hw', _, _, hf', _, _⟩ :=
      construct_valid shot1 idx1 lm1' shot2' idx2' lm2' vtx' sq' h1 h2'
    refine ⟨w', hw', ?_, ?_⟩
    · exact Option.some.inj (hf'.2.2.2.2.2.2.1.trans hfi.symm)
    · exact Option.some.inj (hf'.2.2.2.2.2.2.2.trans hfc.symm)
  · intro shot1' idx1' lm1' lm2' vtx' sq' h1'
    obtain ⟨w', _, _, _, _, hw', _, _, _, hb', _⟩ :=
      construct_valid shot1' idx1' lm1' shot2 idx2 lm2' vtx' sq' h1' h2
    refine ⟨w', hw', ?_, ?_⟩
    · exact Option.some.inj (hb'.2.2.2.2.2.2.1.trans hbi.symm)
    · exact Option.some.inj (hb'.2.2.2.2.2.2.2.trans hbc.symm)

/-- Claim C4 at the scenario of the spec: shot 1 Perspective with `fx = fy = 500` and
`cx = cy = 320`, shot 2 Equirectangular with `cols = 1024` and `rows = 512`; the forward edge
then holds `500, 500, 320, 320` and the backward edge `1024, 512`. -/
theorem construct_intrinsics_scenario :
    valid_observation scenario_shot1 0 = true ∧ valid_observation scenario_shot2 1 = true ∧
    ∃ w, mutual_reproj_edge_wapper.construct scenario_shot1 0 scenario_lm1 scenario_shot2 1
        scenario_lm2 scenario_vtx 2 = Except.ok w ∧
      w.edge_12_.intrinsics = edge_intrinsics.four 500 500 320 320 ∧
      w.edge_21_.intrinsics = edge_intrinsics.two 1024 512 := by
  refine ⟨by decide, by decide, ?_⟩
  obtain ⟨w, hw, hf, hb, _, _⟩ :=
    construct_intrinsics scenario_shot1 0 scenario_lm1 scenario_shot2 1 scenario_lm2
      scenario_vtx 2 (by decide) (by decide)
  exact ⟨w, hw, hf.1 ⟨500, 500, 320, 320⟩ rfl, hb.2.2 ⟨1024, 512⟩ rfl⟩

/-- Claim C5, as amended: in each direction the dispatch selects between two edge classes:
a Perspective and a Fisheye shot both get the perspective edge class of that direction, an
Equirectangular shot gets the equirectangular edge class of that direction; so the edges of
two valid inputs have different classes exactly when one of the two shots is Equirectangular
and the other is not, and a forward class is never a backward class. -/
theorem construct_edge_classes (shot1 : shot) (idx1 : Nat) (lm1 : data.landmark) (shot2 : shot)
    (idx2 : Nat) (lm2 : data.landmark) (vtx : transform_vertex_ptr) (sq : Scalar)
    (shot1' : shot) (idx1' : Nat) (lm1' : data.landmark) (shot2' : shot) (idx2' : Nat)
    (lm2' : data.landmark) (vtx' : transform_vertex_ptr) (sq' : Scalar)
    (h1 : valid_observation shot1 idx1 = true) (h2 : valid_observation shot2 idx2 = true)
    (h1' : valid_observation shot1' idx1' = true) (h2' : valid_observation shot2' idx2' = true) :
    ∃ w w',
      mutual_reproj_edge_wapper.construct shot1 idx1 lm1 shot2 idx2 lm2 vtx sq = Except.ok w ∧
      mutual_reproj_edge_wapper.construct shot1' idx1' lm1' shot2' idx2' lm2' vtx' sq' =
        Except.ok w' ∧
      w.edge_12_.dynamic_class =
        (if shot1.camera_.model_type_ = camera.model_type_t.Equirectangular
          then edge_class.equirectangular_forward_reproj_edge
          else edge_class.perspective_forward_reproj_edge) ∧
      w.edge_21_.dynamic_class =
        (if shot2.camera_.model_type_ = camera.model_type_t.Equirectangular
          then edge_class.equirectangular_backward_reproj_edge
          else edge_class.perspective_backward_reproj_edge) ∧
      (w.edge_12_.dynamic_class ≠ w'.edge_12_.dynamic_class ↔
        ¬ (shot1.camera_.model_type_ = camera.model_type_t.Equirectangular ↔
            shot1'.camera_.model_type_ = camera.model_type_t.Equirectangular)) ∧
      (w.edge_21_.dynamic_class ≠ w'.edge_21_.dynamic_class ↔
        ¬ (shot2.camera_.model_type_ = camera.model_type_t.Equirectangular ↔
            shot2'.camera_.model_type_ = camera.model_type_t.Equirectangular)) ∧
      w.edge_12_.dynamic_class ≠ w'.edge_21_.dynamic_class := by
  obtain ⟨w, _, _, _, _, hw, _, _, hf, hb, _⟩ :=
    construct_valid shot1 idx1 lm1 shot2 idx2 lm2 vtx sq h1 h2
  obtain ⟨w', _, _, _, _, hw', _, _, hf', hb', _⟩ :=
    construct_valid shot1' idx1' lm1' shot2' idx2' lm2' vtx' sq' h1' h2'
  have hfc := hf.2.2.2.2.2.2.2
  have hbc := hb.2.2.2.2.2.2.2
  have hfc' := hf'.2.2.2.2.2.2.2
  have hbc' := hb'.2.2.2.2.2.2.2
  have c1 := forward_class_eq _ _ ((valid_observation_iff _ _).mp h1).1 hfc
  have c2 := backward_class_eq _ _ ((valid_observation_iff _ _).mp h2).1 hbc
  have c1' := forward_class_eq _ _ ((valid_observation_iff _ _).mp h1').1 hfc'
  have c2' := backward_class_eq _ _ ((valid_observation_iff _ _).mp h2').1 hbc'
  refine ⟨w, w', hw, hw', c1, c2, ?_, ?_, ?_⟩
  · rw [c1, c1']
    by_cases ha : shot1.camera_.model_type_ = camera.model_type_t.Equirectangular <;>
      by_cases hb : shot1'.camera_.model_type_ = camera.model_type_t.Equirectangular <;>
      simp [ha, hb]
  · rw [c2, c2']
    by_cases ha : shot2.camera_.model_type_ = camera.model_type_t.Equirectangular <;>
      by_cases hb : shot2'.camera_.model_type_ = camera.model_type_t.Equirectangular <;>
      simp [ha, hb]
  · rw [c1, c2']
    by_cases ha : shot1.camera_.model_type_ = camera.model_type_t.Equirectangular <;>
      by_cases hb : shot2'.camera_.model_type_ = camera.model_type_t.Equirectangular <;>
      simp [ha, hb]

/-- Claim C5, as amended, at two concrete inputs: the scenario of the spec (Perspective
shot 1, Equirectangular shot 2) and the same observations seen by Fisheye cameras; the two
forward edges have the same class, the two backward edges have different classes. -/
theorem construct_edge_classes_scenario :
    valid_observation scenario_shot1 0 = true ∧ valid_observation scenario_shot2 1 = true ∧
    valid_observation fisheye_shot1 0 = true ∧ valid_observation fisheye_shot2 1 = true ∧
    ∃ w w',
      mutual_reproj_edge_wapper.construct scenario_shot1 0 scenario_lm1 scenario_shot2 1
        scenario_lm2 scenario_vtx 2 = Except.ok w ∧
      mutual_reproj_edge_wapper.construct fisheye_shot1 0 scenario_lm1 fisheye_shot2 1
        scenario_lm2 scenario_vtx 2 = Except.ok w' ∧
      w.edge_12_.dynamic_class = edge_class.perspective_forward_reproj_edge ∧
      w.edge_21_.dynamic_class = edge_class.equirectangular_backward_reproj_edge ∧
      ¬ (w.edge_12_.dynamic_class ≠ w'.edge_12_.dynamic_class) ∧
      w.edge_21_.dynamic_class ≠ w'.edge_21_.dynamic_class := by
  refine ⟨by decide, by decide, by decide, by decide, ?_⟩
  obtain ⟨w, w', hw, hw', c1, c2, i1, i2, _⟩ :=
    construct_edge_classes scenario_shot1 0 scenario_lm1 scenario_shot2 1 scenario_lm2
      scenario_vtx 2 fisheye_shot1 0 scenario_lm1 fisheye_shot2 1 scenario_lm2 scenario_vtx 2
      (by decide) (by decide) (by decide) (by decide)
  refine ⟨w, w', hw, hw', c1.trans (by decide), c2.trans (by decide), ?_, ?_⟩
  · rw [i1]
    decide
  · rw [i2]
    decide

/-- Claim C5 as stated fails: a Perspective and a Fisheye shot have different camera-model
variants, yet as `shot1` they get forward edges of the same class
`perspective_forward_reproj_edge`, and as `shot2` backward edges of the same class
`perspective_backward_reproj_edge`. -/
theorem construct_edge_classes_shared :
    valid_observation scenario_shot1 0 = true ∧ valid_observation fisheye_shot1 0 = true ∧
    scenario_shot1.camera_.model_type_ = camera.model_type_t.Perspective ∧
    fisheye_shot1.camera_.model_type_ = camera.model_type_t.Fisheye ∧
    scenario_shot1.camera_.model_type_ ≠ fisheye_shot1.camera_.model_type_ ∧
    ∃ w w',
      mutual_reproj_edge_wapper.construct scenario_shot1 0 scenario_lm1 scenario_shot1 0
        scenario_lm2 scenario_vtx 2 = Except.ok w ∧
      mutual_reproj_edge_wapper.construct fisheye_shot1 0 scenario_lm1 fisheye_shot1 0
        scenario_lm2 scenario_vtx 2 = Except.ok w' ∧
      w.edge_12_.dynamic_class = edge_class.perspective_forward_reproj_edge ∧
      w'.edge_12_.dynamic_class = edge_class.perspective_forward_reproj_edge ∧
      w.edge_21_.dynamic_class = edge_class.perspective_backward_reproj_edge ∧
      w'.edge_21_.dynamic_class = edge_class.perspective_backward_reproj_edge :=
  ⟨by decide, by decide, rfl, rfl, by decide, _, _, rfl, rfl, rfl, rfl, rfl, rfl⟩

theorem with_levels_level (w : mutual_reproj_edge_wapper) (l1 l2 : Int) :
    (w.with_levels l1 l2).edge_12_.level = l1 ∧ (w.with_levels l1 l2).edge_21_.level = l2 :=
  ⟨(forward_setLevel_frame w.edge_12_ l1).1, (backward_setLevel_frame w.edge_21_ l2).1⟩

theorem is_inlier_eq_true_iff (w : mutual_reproj_edge_wapper) :
    w.is_inlier = true ↔ w.edge_12_.level = 0 ∧ w.edge_21_.level = 0 := by
  simp [mutual_reproj_edge_wapper.is_inlier]

theorem set_as_inlier_level (w : mutual_reproj_edge_wapper) :
    w.set_as_inlier.edge_12_.level = 0 ∧ w.set_as_inlier.edge_21_.level = 0 :=
  ⟨(forward_setLevel_frame w.edge_12_ 0).1, (backward_setLevel_frame w.edge_21_ 0).1⟩

theorem set_as_outlier_level (w : mutual_reproj_edge_wapper) :
    w.set_as_outlier.edge_12_.level = 1 ∧ w.set_as_outlier.edge_21_.level = 1 :=
  ⟨(forward_setLevel_frame w.edge_12_ 1).1, (backward_setLevel_frame w.edge_21_ 1).1⟩

/-- Claim C7: `is_inlier()` returns true if and only if the level of `edge_12_` is 0 and the
level of `edge_21_` is 0, in every state and for every pair of integer levels `l1`, `l2` the
two edges hold; it is false as soon as one of the two levels is nonzero. -/
theorem is_inlier_iff_both_levels_zero (w : mutual_reproj_edge_wapper) (l1 l2 : Int) :
    (w.is_inlier = true ↔ w.edge_12_.level = 0 ∧ w.edge_21_.level = 0) ∧
      ((w.with_levels l1 l2).is_inlier = true ↔ l1 = 0 ∧ l2 = 0) ∧
      ((w.with_levels l1 l2).is_inlier = false ↔ l1 ≠ 0 ∨ l2 ≠ 0) := by
  obtain ⟨e1, e2⟩ := with_levels_level w l1 l2
  have h2 : (w.with_levels l1 l2).is_inlier = true ↔ l1 = 0 ∧ l2 = 0 := by
    rw [is_inlier_eq_true_iff, e1, e2]
  refine ⟨is_inlier_eq_true_iff w, h2, ?_⟩
  rw [← Bool.not_eq_true, h2]
  tauto

/-- Claim C8: immediately after a successful construction, with no setter called, both edges
have level 0, `is_inlier()` is true and `is_outlier()` is false, for every valid input and
every combination of camera-model variants. -/
theorem construct_is_inlier (shot1 : shot) (idx1 : Nat) (lm1 : data.landmark) (shot2 : shot)
    (idx2 : Nat) (lm2 : data.landmark) (vtx : transform_vertex_ptr) (sq : Scalar)
    (h1 : valid_observation shot1 idx1 = true) (h2 : valid_observation shot2 idx2 = true) :
    ∃ w, mutual_reproj_edge_wapper.construct shot1 idx1 lm1 shot2 idx2 lm2 vtx sq = Except.ok w ∧
      w.edge_12_.level = 0 ∧ w.edge_21_.level = 0 ∧ w.is_inlier = true ∧
      w.is_outlier = false := by
  obtain ⟨w, kp1, sg1, kp2, sg2, hw, _, _, hf, hb, _⟩ :=
    construct_valid shot1 idx1 lm1 shot2 idx2 lm2 vtx sq h1 h2
  have hl1 := hf.2.2.2.2.1
  have hl2 := hb.2.2.2.2.1
  have hin : w.is_inlier = true := (is_inlier_eq_true_iff w).mpr ⟨hl1, hl2⟩
  exact ⟨w, hw, hl1, hl2, hin, by simp [mutual_reproj_edge_wapper.is_outlier, hin]⟩

/-- Claim C8 at the scenario of the spec. -/
theorem construct_is_inlier_scenario :
    valid_observation scenario_shot1 0 = true ∧ valid_observation scenario_shot2 1 = true ∧
    ∃ w, mutual_reproj_edge_wapper.construct scenario_shot1 0 scenario_lm1 scenario_shot2 1
        scenario_lm2 scenario_vtx 2 = Except.ok w ∧
      w.edge_12_.level = 0 ∧ w.edge_21_.level = 0 ∧ w.is_inlier = true ∧
      w.is_outlier = false :=
  ⟨by decide, by decide,
    construct_is_inlier scenario_shot1 0 scenario_lm1 scenario_shot2 1 scenario_lm2
      scenario_vtx 2 (by decide) (by decide)⟩

/-- Claim C9: in every state of an edge pair, also one whose two levels `l1`, `l2` were set
individually on the public edges, `is_outlier()` is the negation of `is_inlier()`, and it is
true if and only if at least one of the two edges has a nonzero level. -/
theorem is_outlier_iff_some_level_nonzero (w : mutual_reproj_edge_wapper) (l1 l2 : Int) :
    w.is_outlier = (!w.is_inlier) ∧
      (w.is_outlier = true ↔ w.edge_12_.level ≠ 0 ∨ w.edge_21_.level ≠ 0) ∧
      (w.with_levels l1 l2).is_outlier = (!(w.with_levels l1 l2).is_inlier) ∧
      ((w.with_levels l1 l2).is_outlier = true ↔ l1 ≠ 0 ∨ l2 ≠ 0) := by
  have key : ∀ v : mutual_reproj_edge_wapper,
      v.is_outlier = true ↔ v.edge_12_.level ≠ 0 ∨ v.edge_21_.level ≠ 0 := by
    intro v
    have hv := is_inlier_eq_true_iff v
    simp only [mutual_reproj_edge_wapper.is_outlier, Bool.not_eq_true', ← Bool.not_eq_true, hv]
    tauto
  obtain ⟨e1, e2⟩ := with_levels_level w l1 l2
  refine ⟨rfl, key w, rfl, ?_⟩
  rw [key, e1, e2]

/-- Claim C10: from every state of an edge pair, whatever the two previous levels `l1` and
`l2`, `set_as_outlier()` followed by `set_as_inlier()` leaves both edge levels at 0 and
`is_inlier()` true, and `set_as_inlier()` alone yields levels 0 and `is_inlier()` true. -/
theorem set_as_inlier_restores_inlier (w : mutual_reproj_edge_wapper) (l1 l2 : Int) :
    w.set_as_outlier.set_as_inlier.edge_12_.level = 0 ∧
      w.set_as_outlier.set_as_inlier.edge_21_.level = 0 ∧
      w.set_as_outlier.set_as_inlier.is_inlier = true ∧
      w.set_as_inlier.is_inlier = true ∧
      (w.with_levels l1 l2).set_as_outlier.set_as_inlier.is_inlier = true ∧
      (w.with_levels l1 l2).set_as_inlier.edge_12_.level = 0 ∧
      (w.with_levels l1 l2).set_as_inlier.edge_21_.level = 0 ∧
      (w.with_levels l1 l2).set_as_inlier.is_inlier = true := by
  have key : ∀ v : mutual_reproj_edge_wapper, v.set_as_inlier.is_inlier = true := fun v =>
    (is_inlier_eq_true_iff _).mpr (set_as_inlier_level v)
  exact ⟨(set_as_inlier_level _).1, (set_as_inlier_level _).2, key _, key _, key _,
    (set_as_inlier_level _).1, (set_as_inlier_level _).2, key _⟩

theorem call_levels_agree (w : mutual_reproj_edge_wapper) (op : state_view_op)
    (h : w.edge_12_.level = w.edge_21_.level) :
    (w.call op).1.edge_12_.level = (w.call op).1.edge_21_.level := by
  cases op with
  | is_inlier => exact h
  | is_outlier => exact h
  | set_as_inlier => exact (set_as_inlier_level w).1.trans (set_as_inlier_level w).2.symm
  | set_as_outlier => exact (set_as_outlier_level w).1.trans (set_as_outlier_level w).2.symm

theorem run_levels_agree (w : mutual_reproj_edge_wapper) (ops : List state_view_op)
    (h : w.edge_12_.level = w.edge_21_.level) :
    (w.run ops).edge_12_.level = (w.run ops).edge_21_.level := by
  induction ops generalizing w with
  | nil => exact h
  | cons op ops ih => exact ih _ (call_levels_agree w op h)

/-- Claim C11: from every state of an edge pair, `set_as_outlier()` writes the same nonzero
level 1 to `edge_12_` and to `edge_21_`, so that afterwards `is_outlier()` is true and
`is_inlier()` is false; and no state reachable through the setters has the two edges at
different levels: after a call of a setter `op`, followed by any calls `ops` of the four
member functions, the two levels are equal, and so they are after any calls from a state in
which they are equal. -/
theorem set_as_outlier_both_levels (w : mutual_reproj_edge_wapper) (op : state_view_op)
    (ops : List state_view_op) (hop : op.is_setter = true) :
    w.set_as_outlier.edge_12_.level = 1 ∧ w.set_as_outlier.edge_21_.level = 1 ∧
      w.set_as_outlier.is_outlier = true ∧ w.set_as_outlier.is_inlier = false ∧
      (w.run (op :: ops)).edge_12_.level = (w.run (op :: ops)).edge_21_.level ∧
      (w.edge_12_.level = w.edge_21_.level →
        (w.run ops).edge_12_.level = (w.run ops).edge_21_.level) := by
  obtain ⟨o1, o2⟩ := set_as_outlier_level w
  have hin : w.set_as_outlier.is_inlier = false := by
    rw [← Bool.not_eq_true, is_inlier_eq_true_iff, o1]
    simp
  refine ⟨o1, o2, by simp [mutual_reproj_edge_wapper.is_outlier, hin], hin, ?_, ?_⟩
  · cases op with
    | is_inlier => simp [state_view_op.is_setter] at hop
    | is_outlier => simp [state_view_op.is_setter] at hop
    | set_as_inlier =>
      exact run_levels_agree _ ops
        ((set_as_inlier_level w).1.trans (set_as_inlier_level w).2.symm)
    | set_as_outlier => exact run_levels_agree _ ops (o1.trans o2.symm)
  · exact run_levels_agree w ops

/-- Claim C11 at a concrete state: the pair of the scenario of the spec with the levels 3 and
0 written individually on its two edges, then `set_as_outlier()`, `is_inlier()`,
`set_as_inlier()`. -/
theorem set_as_outlier_both_levels_scenario :
    state_view_op.set_as_outlier.is_setter = true ∧
    (scenario_pair.with_levels 3 0).set_as_outlier.edge_12_.level = 1 ∧
    (scenario_pair.with_levels 3 0).set_as_outlier.edge_21_.level = 1 ∧
    (scenario_pair.with_levels 3 0).set_as_outlier.is_outlier = true ∧
    ((scenario_pair.with_levels 3 0).run [state_view_op.set_as_outlier,
        state_view_op.is_inlier, state_view_op.set_as_inlier]).edge_12_.level =
      ((scenario_pair.with_levels 3 0).run [state_view_op.set_as_outlier,
        state_view_op.is_inlier, state_view_op.set_as_inlier]).edge_21_.level :=
  have h := set_as_outlier_both_levels (scenario_pair.with_levels 3 0)
    state_view_op.set_as_outlier [state_view_op.is_inlier, state_view_op.set_as_inlier] rfl
  ⟨rfl, h.1, h.2.1, h.2.2.1, h.2.2.2.2.1⟩

theorem construct_scenario_pair :
    mutual_reproj_edge_wapper.construct scenario_shot1 0 scenario_lm1 scenario_shot2 1
      scenario_lm2 scenario_vtx 2 = Except.ok scenario_pair := by
  simp [mutual_reproj_edge_wapper.construct, forward_switch, backward_switch, scenario_shot1,
    scenario_shot2, scenario_pair, vector_at, through, to_size_t, bind, Except.bind, pure,
    Except.pure, Mat22_t.Identity, Mat22_t.mul_scalar, BaseUnaryEdge.setMeasurement,
    BaseUnaryEdge.setInformation, BaseUnaryEdge.setVertex, BaseUnaryEdge.new,
    perspective_forward_reproj_edge.new, equirectangular_backward_reproj_edge.new,
    base_forward_reproj_edge.setRobustKernel, base_backward_reproj_edge.setRobustKernel,
    BaseUnaryEdge.setRobustKernel, RobustKernelHuber.setDelta, data.landmark.get_pos_in_world,
    scenario_lm1, scenario_lm2]

theorem vector_at_ok_iff {α : Type} {v : List α} {n : Nat} {a : α} :
    vector_at v n = Except.ok a ↔ v[n]? = some a := by
  unfold vector_at
  cases h : v[n]? <;> simp

theorem forward_switch_ok_inv {s : shot} {idx : Nat} {lm : data.landmark}
    {vtx : transform_vertex_ptr} {e : base_forward_reproj_edge}
    (h : forward_switch s idx lm vtx = Except.ok (some e)) :
    s.camera_.model_type_.recognized = true ∧
      ∃ kp sg, vector_at s.undist_keypts_ idx = Except.ok kp ∧
        vector_at s.inv_level_sigma_sq_ (to_size_t kp.octave) = Except.ok sg := by
  unfold forward_switch at h
  cases hc : s.camera_ with
  | other raw =>
    rw [hc] at h
    simp [pure, Except.pure] at h
  | perspective c =>
    rw [hc] at h
    refine ⟨rfl, ?_⟩
    cases hk : vector_at s.undist_keypts_ idx with
    | error f => simp [hk, bind, Except.bind] at h
    | ok kp =>
      cases hs : vector_at s.inv_level_sigma_sq_ (to_size_t kp.octave) with
      | error f => simp [hk, hs, bind, Except.bind] at h
      | ok sg => exact ⟨kp, sg, rfl, hs⟩
  | fisheye c =>
    rw [hc] at h
    refine ⟨rfl, ?_⟩
    cases hk : vector_at s.undist_keypts_ idx with
    | error f => simp [hk, bind, Except.bind] at h
    | ok kp =>
      cases hs : vector_at s.inv_level_sigma_sq_ (to_size_t kp.octave) with
      | error f => simp [hk, hs, bind, Except.bind] at h
      | ok sg => exact ⟨kp, sg, rfl, hs⟩
  | equirectangular c =>
    rw [hc] at h
    refine ⟨rfl, ?_⟩
    cases hk : vector_at s.undist_keypts_ idx with
    | error f => simp [hk, bind, Except.bind] at h
    | ok kp =>
      cases hs : vector_at s.inv_level_sigma_sq_ (to_size_t kp.octave) with
      | error f => simp [hk, hs, bind, Except.bind] at h
      | ok sg => exact ⟨kp, sg, rfl, hs⟩

theorem backward_switch_ok_inv {s : shot} {idx : Nat} {lm : data.landmark}
    {vtx : transform_vertex_ptr} {e : base_backward_reproj_edge}
    (h : backward_switch s idx lm vtx = Except.ok (some e)) :
    s.camera_.model_type_.recognized = true ∧
      ∃ kp sg, vector_at s.undist_keypts_ idx = Except.ok kp ∧
        vector_at s.inv_level_sigma_sq_ (to_size_t kp.octave) = Except.ok sg := by
  unfold backward_switch at h
  cases hc : s.camera_ with
  | other raw =>
    rw [hc] at h
    simp [pure, Except.pure] at h
  | perspective c =>
    rw [hc] at h
    refine ⟨rfl, ?_⟩
    cases hk : vector_at s.undist_keypts_ idx with
    | error f => simp [hk, bind, Except.bind] at h
    | ok kp =>
      cases hs : vector_at s.inv_level_sigma_sq_ (to_size_t kp.octave) with
      | error f => simp [hk, hs, bind, Except.bind] at h
      | ok sg => exact ⟨kp, sg, rfl, hs⟩
  | fisheye c =>
    rw [hc] at h
    refine ⟨rfl, ?_⟩
    cases hk : vector_at s.undist_keypts_ idx with
    | error f => simp [hk, bind, Except.bind] at h
    | ok kp =>
      cases hs : vector_at s.inv_level_sigma_sq_ (to_size_t kp.octave) with
      | error f => simp [hk, hs, bind, Except.bind] at h
      | ok sg => exact ⟨kp, sg, rfl, hs⟩
  | equirectangular c =>
    rw [hc] at h
    refine ⟨rfl, ?_⟩
    cases hk : vector_at s.undist_keypts_ idx with
    | error f => simp [hk, bind, Except.bind] at h
    | ok kp =>
      cases hs : vector_at s.inv_level_sigma_sq_ (to_size_t kp.octave) with
      | error f => simp [hk, hs, bind, Except.bind] at h
      | ok sg => exact ⟨kp, sg, rfl, hs⟩

theorem construct_ok_inv {shot1 shot2 : shot} {idx1 idx2 : Nat} {lm1 lm2 : data.landmark}
    {vtx : transform_vertex_ptr} {sq : Scalar} {w : mutual_reproj_edge_wapper}
    (h : mutual_reproj_edge_wapper.construct shot1 idx1 lm1 shot2 idx2 lm2 vtx sq =
      Except.ok w) :
    ∃ e12 e21, forward_switch shot1 idx1 lm2 vtx = Except.ok (some e12) ∧
      backward_switch shot2 idx2 lm1 vtx = Except.ok (some e21) ∧
      w = { edge_12_ := e12.setRobustKernel ⟨sq⟩, edge_21_ := e21.setRobustKernel ⟨sq⟩,
            shot1_ := shot1, shot2_ := shot2, idx1_ := idx1, idx2_ := idx2, lm1_ := lm1,
            lm2_ := lm2 } := by
  cases hf : forward_switch shot1 idx1 lm2 vtx with
  | error f => simp [mutual_reproj_edge_wapper.construct, hf, bind, Except.bind] at h
  | ok o =>
    cases o with
    | none => simp [mutual_reproj_edge_wapper.construct, hf, through, bind, Except.bind] at h
    | some e12 =>
      cases hb : backward_switch shot2 idx2 lm1 vtx with
      | error f =>
        simp [mutual_reproj_edge_wapper.construct, hf, hb, through, bind, Except.bind] at h
      | ok o =>
        cases o with
        | none =>
          simp [mutual_reproj_edge_wapper.construct, hf, hb, through, bind, Except.bind] at h
        | some e21 =>
          rw [construct_of_switch sq hf hb] at h
          exact ⟨e12, e21, rfl, rfl, (Except.ok.inj h).symm⟩

theorem forward_setLevel_setLevel (e : base_forward_reproj_edge) (a b : Int) :
    (e.setLevel a).setLevel b = e.setLevel b := by
  cases e <;> rfl

theorem backward_setLevel_setLevel (e : base_backward_reproj_edge) (a b : Int) :
    (e.setLevel a).setLevel b = e.setLevel b := by
  cases e <;> rfl

/-- Claim C12: `set_as_inlier()` is idempotent: in every state of an edge pair, applying it
twice yields exactly the state (both levels and every other member) that applying it once
yields. -/
theorem set_as_inlier_idempotent (w : mutual_reproj_edge_wapper) :
    w.set_as_inlier.set_as_inlier = w.set_as_inlier ∧
      w.run [state_view_op.set_as_inlier, state_view_op.set_as_inlier] =
        w.run [state_view_op.set_as_inlier] := by
  have h : w.set_as_inlier.set_as_inlier = w.set_as_inlier := by
    simp only [mutual_reproj_edge_wapper.set_as_inlier, forward_setLevel_setLevel,
      backward_setLevel_setLevel]
  exact ⟨h, h⟩

/-- Claim C13: on every valid input both edges of the constructed pair are bound at vertex
slot 0 to the transform vertex passed as `Sim3_12_vtx`: the vertex of the forward edge and
the vertex of the backward edge are that argument, hence one and the same. -/
theorem construct_shared_vertex (shot1 : shot) (idx1 : Nat) (lm1 : data.landmark) (shot2 : shot)
    (idx2 : Nat) (lm2 : data.landmark) (vtx : transform_vertex_ptr) (sq : Scalar)
    (h1 : valid_observation shot1 idx1 = true) (h2 : valid_observation shot2 idx2 = true) :
    ∃ w, mutual_reproj_edge_wapper.construct shot1 idx1 lm1 shot2 idx2 lm2 vtx sq = Except.ok w ∧
      w.edge_12_.vertex0 = some vtx ∧ w.edge_21_.vertex0 = some vtx ∧
      w.edge_12_.vertex0 = w.edge_21_.vertex0 := by
  obtain ⟨w, kp1, sg1, kp2, sg2, hw, _, _, hf, hb, _⟩ :=
    construct_valid shot1 idx1 lm1 shot2 idx2 lm2 vtx sq h1 h2
  exact ⟨w, hw, hf.2.2.2.1, hb.2.2.2.1, hf.2.2.2.1.trans hb.2.2.2.1.symm⟩

/-- Claim C13 at the scenario of the spec. -/
theorem construct_shared_vertex_scenario :
    valid_observation scenario_shot1 0 = true ∧ valid_observation scenario_shot2 1 = true ∧
    ∃ w, mutual_reproj_edge_wapper.construct scenario_shot1 0 scenario_lm1 scenario_shot2 1
        scenario_lm2 scenario_vtx 2 = Except.ok w ∧
      w.edge_12_.vertex0 = some scenario_vtx ∧ w.edge_21_.vertex0 = some scenario_vtx ∧
      w.edge_12_.vertex0 = w.edge_21_.vertex0 :=
  ⟨by decide, by decide,
    construct_shared_vertex scenario_shot1 0 scenario_lm1 scenario_shot2 1 scenario_lm2
      scenario_vtx 2 (by decide) (by decide)⟩

/-- Claim C16: after a successful construction the stored observation triples are the
arguments in the same positions, not swapped: `shot1_ = shot1`, `idx1_ = idx1`,
`lm1_ = lm1`, `shot2_ = shot2`, `idx2_ = idx2`, `lm2_ = lm2`, while the 3D point of the
forward edge is the position of `lm2_` and that of the backward edge the position of
`lm1_`. -/
theorem construct_stored_triples (shot1 : shot) (idx1 : Nat) (lm1 : data.landmark) (shot2 : shot)
    (idx2 : Nat) (lm2 : data.landmark) (vtx : transform_vertex_ptr) (sq : Scalar)
    (w : mutual_reproj_edge_wapper)
    (h : mutual_reproj_edge_wapper.construct shot1 idx1 lm1 shot2 idx2 lm2 vtx sq =
      Except.ok w) :
    w.shot1_ = shot1 ∧ w.idx1_ = idx1 ∧ w.lm1_ = lm1 ∧ w.shot2_ = shot2 ∧ w.idx2_ = idx2 ∧
      w.lm2_ = lm2 ∧ w.edge_12_.pos_w_ = w.lm2_.get_pos_in_world ∧
      w.edge_21_.pos_w_ = w.lm1_.get_pos_in_world := by
  obtain ⟨e12, e21, hf, hb, hw⟩ := construct_ok_inv h
  obtain ⟨hrec1, kp1, sg1, hk1, hs1⟩ := forward_switch_ok_inv hf
  obtain ⟨hrec2, kp2, sg2, hk2, hs2⟩ := backward_switch_ok_inv hb
  obtain ⟨e12', hf', _, _, hp1, _⟩ := forward_switch_valid shot1 idx1 lm2 vtx kp1 sg1 hrec1 hk1 hs1
  obtain ⟨e21', hb', _, _, hp2, _⟩ :=
    backward_switch_valid shot2 idx2 lm1 vtx kp2 sg2 hrec2 hk2 hs2
  have he1 : e12' = e12 := Option.some.inj (Except.ok.inj (hf'.symm.trans hf))
  have he2 : e21' = e21 := Option.some.inj (Except.ok.inj (hb'.symm.trans hb))
  subst he1 he2 hw
  exact ⟨rfl, rfl, rfl, rfl, rfl, rfl,
    (forward_setRobustKernel_frame _ _).2.2.2.1.trans hp1,
    (backward_setRobustKernel_frame _ _).2.2.2.1.trans hp2⟩

/-- Claim C16 at the scenario of the spec. -/
theorem construct_stored_triples_scenario :
    mutual_reproj_edge_wapper.construct scenario_shot1 0 scenario_lm1 scenario_shot2 1
        scenario_lm2 scenario_vtx 2 = Except.ok scenario_pair ∧
    scenario_pair.shot1_ = scenario_shot1 ∧ scenario_pair.idx1_ = 0 ∧
    scenario_pair.lm1_ = scenario_lm1 ∧ scenario_pair.shot2_ = scenario_shot2 ∧
    scenario_pair.idx2_ = 1 ∧ scenario_pair.lm2_ = scenario_lm2 ∧
    scenario_pair.edge_12_.pos_w_ = scenario_pair.lm2_.get_pos_in_world ∧
    scenario_pair.edge_21_.pos_w_ = scenario_pair.lm1_.get_pos_in_world :=
  ⟨construct_scenario_pair,
    construct_stored_triples scenario_shot1 0 scenario_lm1 scenario_shot2 1 scenario_lm2
      scenario_vtx 2 scenario_pair construct_scenario_pair⟩

theorem setLevel_same_but_levels (w : mutual_reproj_edge_wapper) (l1 l2 : Int) :
    same_but_levels w
      { w with edge_12_ := w.edge_12_.setLevel l1, edge_21_ := w.edge_21_.setLevel l2 } := by
  obtain ⟨_, fm, fi, fp, fv, fk, fin, fc⟩ := forward_setLevel_frame w.edge_12_ l1
  obtain ⟨_, bm, bi, bp, bv, bk, bin, bc⟩ := backward_setLevel_frame w.edge_21_ l2
  exact ⟨⟨fm, fi, fp, fin, fv, fk, fc⟩, ⟨bm, bi, bp, bin, bv, bk, bc⟩,
    ⟨rfl, rfl, rfl, rfl, rfl, rfl⟩⟩

/-- Claim C17 (frame property of the state view): in every state of an edge pair,
`set_as_inlier()` and `set_as_outlier()` change nothing but the two levels: each edge's
measurement, information matrix, attached 3D point, intrinsics, bound vertex and robust
kernel, and the stored `shot1_`, `idx1_`, `lm1_`, `shot2_`, `idx2_`, `lm2_`, are after the
call what they were before; `is_inlier()` and `is_outlier()` leave the whole state as it
is. -/
theorem state_view_frame (w : mutual_reproj_edge_wapper) :
    same_but_levels w w.set_as_inlier ∧ same_but_levels w w.set_as_outlier ∧
      same_but_levels w (w.call state_view_op.set_as_inlier).1 ∧
      same_but_levels w (w.call state_view_op.set_as_outlier).1 ∧
      (w.call state_view_op.is_inlier).1 = w ∧ (w.call state_view_op.is_outlier).1 = w :=
  ⟨setLevel_same_but_levels w 0 0, setLevel_same_but_levels w 1 1,
    setLevel_same_but_levels w 0 0, setLevel_same_but_levels w 1 1, rfl, rfl⟩

theorem to_size_t_of_neg (i : c_int) (h : i.val < 0) :
    (2 ^ 63 : Nat) ≤ to_size_t i := by
  have hp := i.property
  unfold to_size_t
  omega

theorem vector_at_octave_fail {α : Type} (v : List α) (i : c_int)
    (hv : v.length < 2 ^ 63) (hbad : ¬ (0 ≤ i.val ∧ i.val < (v.length : Int))) :
    vector_at v (to_size_t i) = Except.error fault.out_of_range := by
  apply vector_at_of_get?_none
  rw [List.getElem?_eq_none_iff]
  by_cases h0 : 0 ≤ i.val
  · rw [to_size_t_of_nonneg i h0]
    omega
  · have := to_size_t_of_neg i (by omega)
    omega

theorem vector_at_index_fail {α : Type} (v : List α) (n : Nat) (h : ¬ n < v.length) :
    vector_at v n = Except.error fault.out_of_range := by
  apply vector_at_of_get?_none
  rw [List.getElem?_eq_none_iff]
  omega

theorem vector_at_ok_lt {α : Type} {v : List α} {n : Nat} {a : α}
    (h : vector_at v n = Except.ok a) : n < v.length := by
  rw [vector_at_ok_iff] at h
  by_contra hn
  rw [List.getElem?_eq_none_iff.mpr (by omega)] at h
  cases h

theorem forward_switch_keypt_fail (s : shot) (idx : Nat) (lm : data.landmark)
    (vtx : transform_vertex_ptr) (f : fault)
    (hrec : s.camera_.model_type_.recognized = true)
    (hk : vector_at s.undist_keypts_ idx = Except.error f) :
    forward_switch s idx lm vtx = Except.error f := by
  unfold forward_switch
  cases hc : s.camera_ with
  | other raw =>
    rw [hc] at hrec
    simp [camera.base.model_type_, camera.model_type_t.recognized] at hrec
  | perspective c => simp [hk, bind, Except.bind]
  | fisheye c => simp [hk, bind, Except.bind]
  | equirectangular c => simp [hk, bind, Except.bind]

theorem forward_switch_octave_fail (s : shot) (idx : Nat) (lm : data.landmark)
    (vtx : transform_vertex_ptr) (kp : KeyPoint) (f : fault)
    (hrec : s.camera_.model_type_.recognized = true)
    (hk : vector_at s.undist_keypts_ idx = Except.ok kp)
    (hs : vector_at s.inv_level_sigma_sq_ (to_size_t kp.octave) = Except.error f) :
    forward_switch s idx lm vtx = Except.error f := by
  unfold forward_switch
  cases hc : s.camera_ with
  | other raw =>
    rw [hc] at hrec
    simp [camera.base.model_type_, camera.model_type_t.recognized] at hrec
  | perspective c => simp [hk, hs, bind, Except.bind]
  | fisheye c => simp [hk, hs, bind, Except.bind]
  | equirectangular c => simp [hk, hs, bind, Except.bind]

theorem backward_switch_keypt_fail (s : shot) (idx : Nat) (lm : data.landmark)
    (vtx : transform_vertex_ptr) (f : fault)
    (hrec : s.camera_.model_type_.recognized = true)
    (hk : vector_at s.undist_keypts_ idx = Except.error f) :
    backward_switch s idx lm vtx = Except.error f := by
  unfold backward_switch
  cases hc : s.camera_ with
  | other raw =>
    rw [hc] at hrec
    simp [camera.base.model_type_, camera.model_type_t.recognized] at hrec
  | perspective c => simp [hk, bind, Except.bind]
  | fisheye c => simp [hk, bind, Except.bind]
  | equirectangular c => simp [hk, bind, Except.bind]

theorem backward_switch_octave_fail (s : shot) (idx : Nat) (lm : data.landmark)
    (vtx : transform_vertex_ptr) (kp : KeyPoint) (f : fault)
    (hrec : s.camera_.model_type_.recognized = true)
    (hk : vector_at s.undist_keypts_ idx = Except.ok kp)
    (hs : vector_at s.inv_level_sigma_sq_ (to_size_t kp.octave) = Except.error f) :
    backward_switch s idx lm vtx = Except.error f := by
  unfold backward_switch
  cases hc : s.camera_ with
  | other raw =>
    rw [hc] at hrec
    simp [camera.base.model_type_, camera.model_type_t.recognized] at hrec
  | perspective c => simp [hk, hs, bind, Except.bind]
  | fisheye c => simp [hk, hs, bind, Except.bind]
  | equirectangular c => simp [hk, hs, bind, Except.bind]

theorem construct_forward_error {shot1 : shot} {idx1 : Nat} {lm2 : data.landmark}
    {vtx : transform_vertex_ptr} {f : fault} (lm1 : data.landmark) (shot2 : shot) (idx2 : Nat)
    (sq : Scalar) (hf : forward_switch shot1 idx1 lm2 vtx = Except.error f) :
    mutual_reproj_edge_wapper.construct shot1 idx1 lm1 shot2 idx2 lm2 vtx sq =
      Except.error f := by
  simp [mutual_reproj_edge_wapper.construct, hf, bind, Except.bind]

theorem construct_backward_error {shot1 shot2 : shot} {idx1 idx2 : Nat}
    {lm1 lm2 : data.landmark} {vtx : transform_vertex_ptr} {f : fault}
    {e12 : base_forward_reproj_edge} (sq : Scalar)
    (hf : forward_switch shot1 idx1 lm2 vtx = Except.ok (some e12))
    (hb : backward_switch shot2 idx2 lm1 vtx = Except.error f) :
    mutual_reproj_edge_wapper.construct shot1 idx1 lm1 shot2 idx2 lm2 vtx sq =
      Except.error f := by
  simp [mutual_reproj_edge_wapper.construct, hf, hb, through, bind, Except.bind]

theorem forward_switch_of_valid {s : shot} {idx : Nat} (lm : data.landmark)
    (vtx : transform_vertex_ptr) (h : valid_observation s idx = true) :
    ∃ e, forward_switch s idx lm vtx = Except.ok (some e) := by
  obtain ⟨kp, sg, hrec, _, _, _, hv, hvs⟩ := valid_observation_lookup h
  obtain ⟨e, hf, _⟩ := forward_switch_valid s idx lm vtx kp sg hrec hv hvs
  exact ⟨e, hf⟩

theorem backward_switch_of_valid {s : shot} {idx : Nat} (lm : data.landmark)
    (vtx : transform_vertex_ptr) (h : valid_observation s idx = true) :
    ∃ e, backward_switch s idx lm vtx = Except.ok (some e) := by
  obtain ⟨kp, sg, hrec, _, _, _, hv, hvs⟩ := valid_observation_lookup h
  obtain ⟨e, hb, _⟩ := backward_switch_valid s idx lm vtx kp sg hrec hv hvs
  exact ⟨e, hb⟩

/-- Claim C15 (fail fast on bad indices, no partial pair): if `idx1` is not an index into the
undistorted keypoints of `shot1`, or `idx2` is not an index into those of `shot2`, the
constructor returns no edge pair; with a recognised camera model the failed lookup throws
`std::out_of_range`, for `idx1` in the forward phase and, when the forward phase has run on
a valid first observation, for `idx2` in the backward phase. -/
theorem construct_bad_index (shot1 : shot) (idx1 : Nat) (lm1 : data.landmark) (shot2 : shot)
    (idx2 : Nat) (lm2 : data.landmark) (vtx : transform_vertex_ptr) (sq : Scalar)
    (h : ¬ idx1 < shot1.undist_keypts_.length ∨ ¬ idx2 < shot2.undist_keypts_.length) :
    (∀ w, mutual_reproj_edge_wapper.construct shot1 idx1 lm1 shot2 idx2 lm2 vtx sq ≠
        Except.ok w) ∧
      (shot1.camera_.model_type_.recognized = true → ¬ idx1 < shot1.undist_keypts_.length →
        mutual_reproj_edge_wapper.construct shot1 idx1 lm1 shot2 idx2 lm2 vtx sq =
          Except.error fault.out_of_range) ∧
      (valid_observation shot1 idx1 = true → shot2.camera_.model_type_.recognized = true →
        ¬ idx2 < shot2.undist_keypts_.length →
        mutual_reproj_edge_wapper.construct shot1 idx1 lm1 shot2 idx2 lm2 vtx sq =
          Except.error fault.out_of_range) := by
  refine ⟨?_, ?_, ?_⟩
  · intro w hw
    obtain ⟨e12, e21, hf, hb, _⟩ := construct_ok_inv hw
    obtain ⟨_, kp1, _, hk1, _⟩ := forward_switch_ok_inv hf
    obtain ⟨_, kp2, _, hk2, _⟩ := backward_switch_ok_inv hb
    rcases h with h | h
    · exact h (vector_at_ok_lt hk1)
    · exact h (vector_at_ok_lt hk2)
  · intro hrec hbad
    exact construct_forward_error lm1 shot2 idx2 sq
      (forward_switch_keypt_fail shot1 idx1 lm2 vtx _ hrec (vector_at_index_fail _ _ hbad))
  · intro hv hrec hbad
    obtain ⟨e12, hf⟩ := forward_switch_of_valid lm2 vtx hv
    exact construct_backward_error sq hf
      (backward_switch_keypt_fail shot2 idx2 lm1 vtx _ hrec (vector_at_index_fail _ _ hbad))

/-- Claim C15 at the scenario of the spec with `idx2 = 5`, beyond the two keypoints of shot
2, `idx1` being valid: the backward lookup throws and no pair is returned. -/
theorem construct_bad_index_scenario :
    (¬ 0 < scenario_shot1.undist_keypts_.length ∨ ¬ 5 < scenario_shot2.undist_keypts_.length) ∧
    (∀ w, mutual_reproj_edge_wapper.construct scenario_shot1 0 scenario_lm1 scenario_shot2 5
        scenario_lm2 scenario_vtx 2 ≠ Except.ok w) ∧
    mutual_reproj_edge_wapper.construct scenario_shot1 0 scenario_lm1 scenario_shot2 5
        scenario_lm2 scenario_vtx 2 = Except.error fault.out_of_range :=
  have h := construct_bad_index scenario_shot1 0 scenario_lm1 scenario_shot2 5 scenario_lm2
    scenario_vtx 2 (Or.inr (by decide))
  ⟨Or.inr (by decide), h.1, h.2.2 (by decide) (by decide) (by decide)⟩

/-- Claim C18 (directional independence of the builder): for valid inputs with the same
`shot1`, `idx1`, position of `lm2`, transform vertex and `sqrt_chi_sq`, the constructed
forward edges are equal in every member, whatever `shot2`, `idx2` and `lm1` are; and for
valid inputs with the same `shot2`, `idx2`, position of `lm1`, vertex and `sqrt_chi_sq`, the
constructed backward edges are equal, whatever `shot1`, `idx1` and `lm2` are. -/
theorem construct_directional_independence (shot1 : shot) (idx1 : Nat) (lm1 : data.landmark)
    (shot2 : shot) (idx2 : Nat) (lm2 : data.landmark) (vtx : transform_vertex_ptr)
    (sq : Scalar) (shot1' shot2' : shot) (idx1' idx2' : Nat) (lm1' lm2' lm1'' lm2'' : data.landmark)
    (h1 : valid_observation shot1 idx1 = true) (h2 : valid_observation shot2 idx2 = true)
    (h1' : valid_observation shot1' idx1' = true) (h2' : valid_observation shot2' idx2' = true)
    (hp2 : lm2'.get_pos_in_world = lm2.get_pos_in_world)
    (hp1 : lm1''.get_pos_in_world = lm1.get_pos_in_world) :
    ∃ w w' w'',
      mutual_reproj_edge_wapper.construct shot1 idx1 lm1 shot2 idx2 lm2 vtx sq = Except.ok w ∧
      mutual_reproj_edge_wapper.construct shot1 idx1 lm1' shot2' idx2' lm2' vtx sq =
        Except.ok w' ∧
      mutual_reproj_edge_wapper.construct shot1' idx1' lm1'' shot2 idx2 lm2'' vtx sq =
        Except.ok w'' ∧
      w'.edge_12_ = w.edge_12_ ∧ w''.edge_21_ = w.edge_21_ := by
  have e2 : lm2' = lm2 := by
    cases lm2
    cases lm2'
    simpa [data.landmark.get_pos_in_world] using hp2
  have e1 : lm1'' = lm1 := by
    cases lm1
    cases lm1''
    simpa [data.landmark.get_pos_in_world] using hp1
  subst e2 e1
  obtain ⟨e12, hf⟩ := forward_switch_of_valid lm2' vtx h1
  obtain ⟨e21, hb⟩ := backward_switch_of_valid lm1'' vtx h2
  obtain ⟨e12', hf'⟩ := forward_switch_of_valid lm2'' vtx h1'
  obtain ⟨e21', hb'⟩ := backward_switch_of_valid lm1' vtx h2'
  exact ⟨_, _, _, construct_of_switch sq hf hb, construct_of_switch sq hf hb',
    construct_of_switch sq hf' hb, rfl, rfl⟩

/-- Claim C18 at the scenario of the spec: changing the second observation to a Fisheye shot
and `lm1` to another landmark leaves the forward edge as it is, and changing the first
observation and `lm2` leaves the backward edge as it is. -/
theorem construct_directional_independence_scenario :
    valid_observation scenario_shot1 0 = true ∧ valid_observation scenario_shot2 1 = true ∧
    valid_observation fisheye_shot1 0 = true ∧ valid_observation fisheye_shot2 0 = true ∧
    ∃ w w' w'',
      mutual_reproj_edge_wapper.construct scenario_shot1 0 scenario_lm1 scenario_shot2 1
        scenario_lm2 scenario_vtx 2 = Except.ok w ∧
      mutual_reproj_edge_wapper.construct scenario_shot1 0 other_lm fisheye_shot2 0
        scenario_lm2 scenario_vtx 2 = Except.ok w' ∧
      mutual_reproj_edge_wapper.construct fisheye_shot1 0 scenario_lm1 scenario_shot2 1
        other_lm scenario_vtx 2 = Except.ok w'' ∧
      w'.edge_12_ = w.edge_12_ ∧ w''.edge_21_ = w.edge_21_ :=
  ⟨by decide, by decide, by decide, by decide,
    construct_directional_independence scenario_shot1 0 scenario_lm1 scenario_shot2 1
      scenario_lm2 scenario_vtx 2 fisheye_shot1 fisheye_shot2 0 0 other_lm scenario_lm2
      scenario_lm1 other_lm (by decide) (by decide) (by decide) (by decide) rfl rfl⟩

/-- Claim C19 (the octave lookup is checked): let `kp1` and `kp2` be the keypoints selected by
`idx1` and `idx2`, the tables being `std::vector`s (fewer than `2^63` elements).  If the
octave of `kp1` or of `kp2` is not an index into its shot's `inv_level_sigma_sq_` (negative,
or not smaller than the size), the constructor returns no edge pair: with a recognised camera
model the lookup `at(octave)` throws `std::out_of_range` instead of an edge being built on
an arbitrary scalar.  If both octaves are in range (and both camera models recognised) the
constructor returns a pair, and the scalar of each information matrix is the table entry at
that octave. -/
theorem construct_octave_checked (shot1 : shot) (idx1 : Nat) (lm1 : data.landmark)
    (shot2 : shot) (idx2 : Nat) (lm2 : data.landmark) (vtx : transform_vertex_ptr)
    (sq : Scalar) (kp1 kp2 : KeyPoint)
    (hk1 : shot1.undist_keypts_[idx1]? = some kp1)
    (hk2 : shot2.undist_keypts_[idx2]? = some kp2)
    (hs1 : shot1.inv_level_sigma_sq_.length < 2 ^ 63)
    (hs2 : shot2.inv_level_sigma_sq_.length < 2 ^ 63) :
    ((¬ (0 ≤ kp1.octave.val ∧ kp1.octave.val < (shot1.inv_level_sigma_sq_.length : Int)) ∨
        ¬ (0 ≤ kp2.octave.val ∧ kp2.octave.val < (shot2.inv_level_sigma_sq_.length : Int))) →
      ∀ w, mutual_reproj_edge_wapper.construct shot1 idx1 lm1 shot2 idx2 lm2 vtx sq ≠
        Except.ok w) ∧
      (shot1.camera_.model_type_.recognized = true →
        ¬ (0 ≤ kp1.octave.val ∧ kp1.octave.val < (shot1.inv_level_sigma_sq_.length : Int)) →
        mutual_reproj_edge_wapper.construct shot1 idx1 lm1 shot2 idx2 lm2 vtx sq =
          Except.error fault.out_of_range) ∧
      (valid_observation shot1 idx1 = true → shot2.camera_.model_type_.recognized = true →
        ¬ (0 ≤ kp2.octave.val ∧ kp2.octave.val < (shot2.inv_level_sigma_sq_.length : Int)) →
        mutual_reproj_edge_wapper.construct shot1 idx1 lm1 shot2 idx2 lm2 vtx sq =
          Except.error fault.out_of_range) ∧
      (shot1.camera_.model_type_.recognized = true →
        shot2.camera_.model_type_.recognized = true →
        (0 ≤ kp1.octave.val ∧ kp1.octave.val < (shot1.inv_level_sigma_sq_.length : Int)) →
        (0 ≤ kp2.octave.val ∧ kp2.octave.val < (shot2.inv_level_sigma_sq_.length : Int)) →
        ∃ w sg1 sg2,
          mutual_reproj_edge_wapper.construct shot1 idx1 lm1 shot2 idx2 lm2 vtx sq =
            Except.ok w ∧
          shot1.inv_level_sigma_sq_[kp1.octave.val.toNat]? = some sg1 ∧
          shot2.inv_level_sigma_sq_[kp2.octave.val.toNat]? = some sg2 ∧
          w.edge_12_.information = Mat22_t.Identity.mul_scalar sg1 ∧
          w.edge_12_.information.m00 = sg1 ∧ w.edge_12_.information.m11 = sg1 ∧
          w.edge_21_.information = Mat22_t.Identity.mul_scalar sg2 ∧
          w.edge_21_.information.m00 = sg2 ∧ w.edge_21_.information.m11 = sg2) := by
  have hv1 := vector_at_of_get? hk1
  have hv2 := vector_at_of_get? hk2
  refine ⟨?_, ?_, ?_, ?_⟩
  · intro hbad w hw
    obtain ⟨e12, e21, hf, hb, _⟩ := construct_ok_inv hw
    obtain ⟨_, kp1', sg1, hk1', hsg1⟩ := forward_switch_ok_inv hf
    obtain ⟨_, kp2', sg2, hk2', hsg2⟩ := backward_switch_ok_inv hb
    have e1 : kp1' = kp1 := Except.ok.inj (hk1'.symm.trans hv1)
    have e2 : kp2' = kp2 := Except.ok.inj (hk2'.symm.trans hv2)
    subst e1 e2
    rcases hbad with hbad | hbad
    · rw [vector_at_octave_fail _ _ hs1 hbad] at hsg1
      cases hsg1
    · rw [vector_at_octave_fail _ _ hs2 hbad] at hsg2
      cases hsg2
  · intro hrec hbad
    exact construct_forward_error lm1 shot2 idx2 sq
      (forward_switch_octave_fail shot1 idx1 lm2 vtx kp1 _ hrec hv1
        (vector_at_octave_fail _ _ hs1 hbad))
  · intro hv hrec hbad
    obtain ⟨e12, hf⟩ := forward_switch_of_valid lm2 vtx hv
    exact construct_backward_error sq hf
      (backward_switch_octave_fail shot2 idx2 lm1 vtx kp2 _ hrec hv2
        (vector_at_octave_fail _ _ hs2 hbad))
  · intro hrec1 hrec2 ho1 ho2
    have h1 : valid_observation shot1 idx1 = true :=
      (valid_observation_iff shot1 idx1).mpr ⟨hrec1, kp1, hk1, ho1.1, ho1.2⟩
    have h2 : valid_observation shot2 idx2 = true :=
      (valid_observation_iff shot2 idx2).mpr ⟨hrec2, kp2, hk2, ho2.1, ho2.2⟩
    obtain ⟨w, kp1', sg1, kp2', sg2, hw, hl1, hl2, hf, hb, _⟩ :=
      construct_valid shot1 idx1 lm1 shot2 idx2 lm2 vtx sq h1 h2
    have e1 : kp1' = kp1 := Option.some.inj (hl1.1.symm.trans hk1)
    have e2 : kp2' = kp2 := Option.some.inj (hl2.1.symm.trans hk2)
    subst e1 e2
    refine ⟨w, sg1, sg2, hw, hl1.2.2, hl2.2.2, ?_, ?_, ?_, ?_, ?_, ?_⟩
    · rw [hf.2.1]
      simp [Mat22_t.Identity, Mat22_t.mul_scalar]
    · rw [hf.2.1]
    · rw [hf.2.1]
    · rw [hb.2.1]
      simp [Mat22_t.Identity, Mat22_t.mul_scalar]
    · rw [hb.2.1]
    · rw [hb.2.1]

/-- Claim C19 at three concrete inputs: the scenario of the spec with octave `-1` on the
keypoint of shot 1 (the forward lookup throws), with octave `7` on the keypoint of shot 2
(the backward lookup throws), and the scenario itself (both octaves in range, a pair is
returned). -/
theorem construct_octave_checked_scenario :
    negative_octave_shot1.undist_keypts_[0]? = some ⟨⟨330, 240⟩, ⟨-1, by decide⟩⟩ ∧
    large_octave_shot2.undist_keypts_[1]? = some ⟨⟨512, 256⟩, ⟨7, by decide⟩⟩ ∧
    negative_octave_shot1.inv_level_sigma_sq_.length < 2 ^ 63 ∧
    large_octave_shot2.inv_level_sigma_sq_.length < 2 ^ 63 ∧
    mutual_reproj_edge_wapper.construct negative_octave_shot1 0 scenario_lm1 scenario_shot2 1
        scenario_lm2 scenario_vtx 2 = Except.error fault.out_of_range ∧
    mutual_reproj_edge_wapper.construct scenario_shot1 0 scenario_lm1 large_octave_shot2 1
        scenario_lm2 scenario_vtx 2 = Except.error fault.out_of_range ∧
    (∃ w sg1 sg2,
      mutual_reproj_edge_wapper.construct scenario_shot1 0 scenario_lm1 scenario_shot2 1
        scenario_lm2 scenario_vtx 2 = Except.ok w ∧
      scenario_shot1.inv_level_sigma_sq_[(0 : Int).toNat]? = some sg1 ∧
      scenario_shot2.inv_level_sigma_sq_[(1 : Int).toNat]? = some sg2 ∧
      w.edge_12_.information.m00 = sg1 ∧ w.edge_21_.information.m00 = sg2) := by
  have ha := construct_octave_checked negative_octave_shot1 0 scenario_lm1 scenario_shot2 1
    scenario_lm2 scenario_vtx 2 ⟨⟨330, 240⟩, ⟨-1, by decide⟩⟩ ⟨⟨512, 256⟩, ⟨1, by decide⟩⟩
    rfl rfl (by decide) (by decide)
  have hb := construct_octave_checked scenario_shot1 0 scenario_lm1 large_octave_shot2 1
    scenario_lm2 scenario_vtx 2 ⟨⟨330, 240⟩, ⟨0, by decide⟩⟩ ⟨⟨512, 256⟩, ⟨7, by decide⟩⟩
    rfl rfl (by decide) (by decide)
  have hc := construct_octave_checked scenario_shot1 0 scenario_lm1 scenario_shot2 1
    scenario_lm2 scenario_vtx 2 ⟨⟨330, 240⟩, ⟨0, by decide⟩⟩ ⟨⟨512, 256⟩, ⟨1, by decide⟩⟩
    rfl rfl (by decide) (by decide)
  refine ⟨rfl, rfl, by decide, by decide, ha.2.1 (by decide) (by decide),
    hb.2.2.1 (by decide) (by decide) (by decide), ?_⟩
  obtain ⟨w, sg1, sg2, hw, h1, h2, _, h3, _, _, h4, _⟩ :=
    hc.2.2.2 (by decide) (by decide) (by decide) (by decide)
  exact ⟨w, sg1, sg2, hw, h1, h2, h3, h4⟩

theorem kernel_heap_alloc_setDelta (heap : kernel_heap) (d : Scalar) :
    heap.alloc.2.setDelta heap.alloc.1 d = heap ++ [⟨d⟩] := by
  simp [kernel_heap.alloc, kernel_heap.setDelta, RobustKernelHuber.setDelta]

theorem construct_on_heap_of_switch {shot1 shot2 : shot} {idx1 idx2 : Nat}
    {lm1 lm2 : data.landmark} {vtx : transform_vertex_ptr} (heap : kernel_heap) (sq : Scalar)
    {e12 : base_forward_reproj_edge} {e21 : base_backward_reproj_edge}
    (hf : forward_switch shot1 idx1 lm2 vtx = Except.ok (some e12))
    (hb : backward_switch shot2 idx2 lm1 vtx = Except.ok (some e21)) :
    mutual_reproj_edge_wapper.construct_on_heap heap shot1 idx1 lm1 shot2 idx2 lm2 vtx sq =
      Except.ok
        { edge_12_ := ⟨e12, some heap.length⟩, edge_21_ := ⟨e21, some (heap.length + 1)⟩,
          kernels := heap ++ [⟨sq⟩, ⟨sq⟩] } := by
  simp [mutual_reproj_edge_wapper.construct_on_heap, hf, hb, through, bind, Except.bind, pure,
    Except.pure, kernel_heap_alloc_setDelta, with_kernel_ptr.setRobustKernel]
  simp [kernel_heap.alloc]

/-- Claim C14: on every valid input and for every combination of camera-model variants, each
of the two constructed edges has a Huber kernel attached whose threshold `delta` is the
constructor argument `sqrt_chi_sq`; the two kernels are separately instantiated objects:
the pointers the two edges store designate two different objects, both allocated by the
constructor, each carrying that threshold, and the objects allocated before are untouched. -/
theorem construct_huber_kernels (heap : kernel_heap) (shot1 : shot) (idx1 : Nat)
    (lm1 : data.landmark) (shot2 : shot) (idx2 : Nat) (lm2 : data.landmark)
    (vtx : transform_vertex_ptr) (sq : Scalar)
    (h1 : valid_observation shot1 idx1 = true) (h2 : valid_observation shot2 idx2 = true) :
    ∃ w wh p12 p21 k12 k21,
      mutual_reproj_edge_wapper.construct shot1 idx1 lm1 shot2 idx2 lm2 vtx sq = Except.ok w ∧
      mutual_reproj_edge_wapper.construct_on_heap heap shot1 idx1 lm1 shot2 idx2 lm2 vtx sq =
        Except.ok wh ∧
      (wh.edge_12_.robustKernel = some p12 ∧ wh.edge_21_.robustKernel = some p21 ∧
        p12 ≠ p21 ∧ heap.length ≤ p12 ∧ heap.length ≤ p21) ∧
      (wh.kernels[p12]? = some k12 ∧ wh.kernels[p21]? = some k21 ∧
        k12.delta = sq ∧ k21.delta = sq ∧ k12.delta = k21.delta) ∧
      (w.edge_12_.robustKernel = some k12 ∧ w.edge_21_.robustKernel = some k21 ∧
        wh.edge_12_.members.setRobustKernel k12 = w.edge_12_ ∧
        wh.edge_21_.members.setRobustKernel k21 = w.edge_21_) ∧
      (∀ a, a < heap.length → wh.kernels[a]? = heap[a]?) := by
  obtain ⟨e12, hf⟩ := forward_switch_of_valid lm2 vtx h1
  obtain ⟨e21, hb⟩ := backward_switch_of_valid lm1 vtx h2
  refine ⟨_, _, heap.length, heap.length + 1, ⟨sq⟩, ⟨sq⟩, construct_of_switch sq hf hb,
    construct_on_heap_of_switch heap sq hf hb, ⟨rfl, rfl, by omega, by omega, by omega⟩,
    ⟨?_, ?_, rfl, rfl, rfl⟩,
    ⟨(forward_setRobustKernel_frame e12 ⟨sq⟩).1, (backward_setRobustKernel_frame e21 ⟨sq⟩).1,
      rfl, rfl⟩, ?_⟩
  · show (heap ++ [⟨sq⟩, ⟨sq⟩])[heap.length]? = some ⟨sq⟩
    rw [List.getElem?_append_right (Nat.le_refl _)]
    simp
  · show (heap ++ [⟨sq⟩, ⟨sq⟩])[heap.length + 1]? = some ⟨sq⟩
    rw [List.getElem?_append_right (Nat.le_succ _)]
    simp
  · intro a ha
    show (heap ++ [⟨sq⟩, ⟨sq⟩])[a]? = heap[a]?
    rw [List.getElem?_append_left ha]

/-- Claim C14 at the scenario of the spec, on an empty kernel heap: the two edges point to
the kernel objects 0 and 1, both of threshold 2. -/
theorem construct_huber_kernels_scenario :
    valid_observation scenario_shot1 0 = true ∧ valid_observation scenario_shot2 1 = true ∧
    ∃ w wh p12 p21 k12 k21,
      mutual_reproj_edge_wapper.construct scenario_shot1 0 scenario_lm1 scenario_shot2 1
        scenario_lm2 scenario_vtx 2 = Except.ok w ∧
      mutual_reproj_edge_wapper.construct_on_heap [] scenario_shot1 0 scenario_lm1
        scenario_shot2 1 scenario_lm2 scenario_vtx 2 = Except.ok wh ∧
      (wh.edge_12_.robustKernel = some p12 ∧ wh.edge_21_.robustKernel = some p21 ∧
        p12 ≠ p21 ∧ ([] : kernel_heap).length ≤ p12 ∧ ([] : kernel_heap).length ≤ p21) ∧
      (wh.kernels[p12]? = some k12 ∧ wh.kernels[p21]? = some k21 ∧
        k12.delta = 2 ∧ k21.delta = 2 ∧ k12.delta = k21.delta) ∧
      (w.edge_12_.robustKernel = some k12 ∧ w.edge_21_.robustKernel = some k21 ∧
        wh.edge_12_.members.setRobustKernel k12 = w.edge_12_ ∧
        wh.edge_21_.members.setRobustKernel k21 = w.edge_21_) ∧
      (∀ a, a < ([] : kernel_heap).length → wh.kernels[a]? = ([] : kernel_heap)[a]?) :=
  ⟨by decide, by decide,
    construct_huber_kernels [] scenario_shot1 0 scenario_lm1 scenario_shot2 1 scenario_lm2
      scenario_vtx 2 (by decide) (by decide)⟩

end sim3
end optimize.g2o
end PLPSLAM
